import Mathlib

/-!
# imfit: differential-evolution adapter and bootstrap engine

A shallow embedding of `DiffEvolnFit` (diff_evoln_fit.cpp), `BootstrapErrors`
(bootstrap_errors.cpp) and `SaveParameters` (print_results.cpp).

Conventions of the embedding:

* `double` values are only copied, compared for sorting and combined by `-` and `/` in the
  code modelled here, so they are an arbitrary type `α` carrying those operations.
* A C array is a `List`; reading past its end, dereferencing `NULL` and signed overflow are
  undefined behaviour and make the embedded function return `Except.error`.
* The model object, the random generator and everything else reachable through
  `ModelObject *theModel` form the world state `σ`, which is passed explicitly.
* Code that the functions call but that lives in other files (the DE solver class, the other
  two minimisers, the model object's methods, the statistics helpers) is a parameter of the
  embedding, collected in `DESolverLib` and `Externals`.
* Calls to that code and console output are recorded in logs, so that theorems can speak about
  which calls happen and in which order.
-/

namespace Imfit

/-- Undefined behaviour the embedded code can run into. -/
inductive Fault where
  | outOfBounds
  | nullPointer
  | signedOverflow
deriving DecidableEq, Repr

/-- A decimal literal of the source, `mantissa * 10 ^ exponent`. -/
structure Decimal where
  mantissa : Int
  exponent : Int
deriving DecidableEq, Repr

/-- The fields of `mp_par` (param_struct.h) read by the code: `fixed`, `limited[0..1]`,
`limits[0..1]`. -/
structure mp_par (α : Type) where
  fixed : Int
  limited : Int × Int
  limits : α × α
deriving DecidableEq, Repr

/-- Largest value of a C `int`. -/
def INT_MAX : Int := 2147483647

/-- Smallest value of a C `int`. -/
def INT_MIN : Int := -2147483648

/-- Multiplication of two `int`s; overflow is undefined behaviour. -/
def intMul (a b : Int) : Except Fault Int :=
  if INT_MIN ≤ a * b ∧ a * b ≤ INT_MAX then .ok (a * b) else .error .signedOverflow

/-- The read `xs[i]` of a C array. -/
def readAt {β : Type} (xs : List β) (i : Nat) : Except Fault β :=
  match xs[i]? with
  | some x => .ok x
  | none => .error .outOfBounds

/-- The loop `for (i = 0; i < n; i++) body`, threading the loop state. -/
def forLoop {β : Type} (body : Nat → β → Except Fault β) : Nat → β → Except Fault β
  | 0, s => .ok s
  | n + 1, s =>
    match forLoop body n s with
    | .error e => .error e
    | .ok t => body n t

/-! ## diff_evoln_fit.cpp -/

/-- `#define POP_SIZE_PER_PARAMETER  10` -/
def POP_SIZE_PER_PARAMETER : Int := 10

/-- `#define MAX_DE_GENERATIONS 600` -/
def MAX_DE_GENERATIONS : Int := 600

/-- A call made on the `ImfitSolver` object, with its arguments; for `Solve` also the value it
returned, which `DiffEvolnFit` discards. -/
inductive SolverCall (α : Type) where
  | construct (dim pop : Int)
  | Setup (minParamValues maxParamValues : List α) (deStrategy : Int) (F CR : Decimal) (ftol : α)
  | Solve (maxGenerations verbose : Int) (metTolerance : Bool)
  | StoreSolution
deriving DecidableEq, Repr

/-- The base class `DESolver` (DESolver.h), which is not part of the files modelled here.
`S` is the state of a solver object. `construct` receives the overriding `EnergyFunction`;
`Solve` reports whether the tolerance was met before the generation cap; `StoreSolution`
overwrites the caller's array in place, so the array keeps its length. -/
structure DESolverLib (σ α S : Type) where
  stRandToBest1Exp : Int
  construct : Int → Int → (List α → σ → α × σ) → S
  Setup : S → List α → List α → Int → Decimal → Decimal → α → σ → S × σ
  Solve : S → Int → Int → σ → Bool × S × σ
  StoreSolution : S → (paramVector : List α) → { out : List α // out.length = paramVector.length }

/-- `ImfitSolver::EnergyFunction`: the fit statistic of the model at `trial`. -/
def EnergyFunction {σ α : Type} (GetFitStatistic : List α → σ → α × σ) (trial : List α)
    (theModel : σ) : α × σ :=
  GetFitStatistic trial theModel

/-- Local variables of `DiffEvolnFit` that the limits loop updates. -/
structure LimitsScan (α : Type) where
  minParamValues : List α
  maxParamValues : List α
  nFreeParameters : Int
  paramLimitsOK : Bool
deriving DecidableEq, Repr

/-- Body of the loop `for (int i = 0; i < nParamsTot; i++)` of `DiffEvolnFit`. -/
def limitsStep {α : Type} (paramVector : List α) (parameterLimits : List (mp_par α)) (i : Nat)
    (s : LimitsScan α) : Except Fault (LimitsScan α) :=
  match readAt parameterLimits i with
  | .error e => .error e
  | .ok p =>
    if p.fixed = 1 then
      match readAt paramVector i with
      | .error e => .error e
      | .ok v =>
        .ok { s with
              minParamValues := s.minParamValues.set i v
              maxParamValues := s.maxParamValues.set i v
              nFreeParameters := s.nFreeParameters - 1 }
    else if p.limited.1 = 1 ∧ p.limited.2 = 1 then
      .ok { s with
            minParamValues := s.minParamValues.set i p.limits.1
            maxParamValues := s.maxParamValues.set i p.limits.2 }
    else
      .ok { s with paramLimitsOK := false }

/-- The "Check for valid parameter limits" block of `DiffEvolnFit`, starting from the two
zero-filled (`calloc`) arrays. -/
def scanLimits {α : Type} [Zero α] (nParamsTot : Int) (paramVector : List α)
    (parameterLimits : Option (List (mp_par α))) : Except Fault (LimitsScan α) :=
  let start : LimitsScan α :=
    { minParamValues := List.replicate nParamsTot.toNat 0
      maxParamValues := List.replicate nParamsTot.toNat 0
      nFreeParameters := nParamsTot
      paramLimitsOK := true }
  match parameterLimits with
  | none => .ok { start with paramLimitsOK := false }
  | some table => forLoop (limitsStep paramVector table) nParamsTot.toNat start

/-- What a call of `DiffEvolnFit` leaves behind: the returned status, the caller's parameter
vector and limits table, the world, the calls made on the solver and the console output. -/
structure DEOutcome (σ α : Type) where
  status : Int
  paramVector : List α
  parameterLimits : Option (List (mp_par α))
  world : σ
  solver : List (SolverCall α)
  stdout : List String

/-- `DiffEvolnFit( nParamsTot, paramVector, parameterLimits, theModel, ftol, verbose )`. -/
def DiffEvolnFit {σ α S : Type} [Zero α] (de : DESolverLib σ α S)
    (GetFitStatistic : List α → σ → α × σ) (nParamsTot : Int) (paramVector : List α)
    (parameterLimits : Option (List (mp_par α))) (theModel : σ) (ftol : α) (verbose : Int) :
    Except Fault (DEOutcome σ α) :=
  match scanLimits nParamsTot paramVector parameterLimits with
  | .error e => .error e
  | .ok scan =>
    if scan.paramLimitsOK = false then
      .ok { status := -1
            paramVector := paramVector
            parameterLimits := parameterLimits
            world := theModel
            solver := []
            stdout := ["\n*** Parameter limits must be supplied for all parameters when using DE!\n",
                       "Exiting...\n\n"] }
    else
      let F : Decimal := ⟨85, -2⟩
      let CR : Decimal := ⟨10, -1⟩
      let maxGenerations := MAX_DE_GENERATIONS
      match intMul POP_SIZE_PER_PARAMETER scan.nFreeParameters with
      | .error e => .error e
      | .ok pop =>
        let solver0 := de.construct nParamsTot pop (EnergyFunction GetFitStatistic)
        let afterSetup := de.Setup solver0 scan.minParamValues scan.maxParamValues
          de.stRandToBest1Exp F CR ftol theModel
        let afterSolve := de.Solve afterSetup.1 maxGenerations verbose afterSetup.2
        let solution := de.StoreSolution afterSolve.2.1 paramVector
        .ok { status := 1
              paramVector := solution.val
              parameterLimits := parameterLimits
              world := afterSolve.2.2
              solver := [SolverCall.construct nParamsTot pop,
                         SolverCall.Setup scan.minParamValues scan.maxParamValues
                           de.stRandToBest1Exp F CR ftol,
                         SolverCall.Solve maxGenerations verbose afterSolve.1,
                         SolverCall.StoreSolution]
              stdout := [] }

/-! ## bootstrap_errors.cpp -/

/-- The three minimisers `BootstrapErrors` can call. -/
inductive Backend where
  | LevMar
  | NMSimplex
  | DiffEvoln
deriving DecidableEq, Repr

/-- What `LevMarFit` and `NMSimplexFit` return and leave behind; both overwrite an array of
`n` parameter values in place. -/
structure FitReturn (σ α : Type) (n : Nat) where
  status : Int
  paramVector : List α
  length_eq : paramVector.length = n
  world : σ

/-- A call that `BootstrapErrors` makes into other files, in the order made. A `fit` records
the minimiser called, the vector and verbosity handed to it, the status it returned, the vector
it left, and (for `DiffEvolnFit`) the calls made on the DE solver. -/
inductive Call (α : Type) where
  | init_genrand (seed : Nat)
  | UseBootstrap
  | MakeBootstrapSample
  | fit (backend : Backend) (start : List α) (verbose : Int) (status : Int) (result : List α)
      (solver : List (SolverCall α))
  | StandardDeviation (vals : List α) (nVals : Int)
  | ConfidenceInterval (vals : List α) (nVals : Int)
  | Mean (vals : List α) (nVals : Int)
deriving DecidableEq, Repr

/-- One `printf` of `BootstrapErrors`, with the values it formats. -/
inductive Output (α : Type) where
  | text (s : String)
  | iteration (number : Int)
  | rounds (nIterations : Int)
  | statistics (name : String) (bestfit plus minus lower upper halfwidth mean sigma : α)
  | fixedParameter (name : String) (bestfit : α)
  | writing (fileName : String)
deriving DecidableEq, Repr

/-- The text written to the output file: the header line, then one line per element of
`rows`, each value printed with `"%g\t\t"` and the line ended by `"\n"`. -/
structure FileWrite (α : Type) where
  name : String
  header : String
  rows : List (List α)
deriving DecidableEq, Repr

/-- Everything `BootstrapErrors` uses from other files: constants of definitions.h, the build
flag `NO_NLOPT`, the clock, the Mersenne-twister seeding, the methods of `ModelObject`, the
minimisers, the statistics helpers and `fopen` (whether the named file can be opened).
`intervalIndices nVals` are the two indices at which `ConfidenceInterval` reads the sorted
array of `nVals` values (its percentile convention). -/
structure Externals (σ α S : Type) where
  FITSTAT_CHISQUARE : Int
  FITSTAT_MODCASH : Int
  NO_NLOPT : Bool
  time : Int
  init_genrand : Nat → σ → σ
  GetNParams : σ → Int
  GetNValidPixels : σ → Int
  UseBootstrap : σ → σ
  MakeBootstrapSample : σ → σ
  GetFitStatistic : List α → σ → α × σ
  GetParameterName : σ → Int → String
  GetParamHeader : σ → String
  LevMarFit : Int → Int → Int → (paramVector : List α) → Option (List (mp_par α)) → σ → α →
    Bool → Int → FitReturn σ α paramVector.length
  NMSimplexFit : Int → (paramVector : List α) → Option (List (mp_par α)) → σ → α → Int →
    FitReturn σ α paramVector.length
  de : DESolverLib σ α S
  StandardDeviation : List α → Int → α
  Mean : List α → Int → α
  intervalIndices : Int → Int × Int
  fopen : String → Bool

/-- The cast `(unsigned long)` of a `time_t` value (64-bit `unsigned long`). -/
def toUnsignedLong (t : Int) : Nat := (t % 18446744073709551616).toNat

/-- The read `xs[i]` of a C array at an `int` index. -/
def readIndex {β : Type} (xs : List β) (i : Int) : Except Fault β :=
  if i < 0 then .error .outOfBounds else readAt xs i.toNat

/-- Modelled from the spec: `ConfidenceInterval` of statistics.cpp, which is not among the
files modelled here. It "sorts its input (callers must treat the input as consumed/reordered),
then selects values bracketing the central 68% mass", by "selecting the bounding sample
values" at "percentile indices"; bootstrap_errors.cpp notes that it "sorts the vectors in
place". So `lower` and `upper` are two elements of the sorted array, read at the indices the
percentile convention `intervalIndices` gives for `nVals` values. Returns the array as left
behind, `lower`, `upper`. -/
def ConfidenceInterval {α : Type} [LE α] [DecidableRel (fun a b : α => a ≤ b)]
    (intervalIndices : Int → Int × Int) (vals : List α) (nVals : Int) :
    Except Fault (List α × α × α) :=
  let sorted := vals.insertionSort (fun a b => a ≤ b)
  match readIndex sorted (intervalIndices nVals).1 with
  | .error e => .error e
  | .ok lower =>
    match readIndex sorted (intervalIndices nVals).2 with
    | .error e => .error e
    | .ok upper => .ok (sorted, lower, upper)

/-- Local state of `BootstrapErrors` while it runs: the world behind `theModel`, the working
vector `paramsVect`, the sample matrix `paramArray` (one row per parameter), `paramSigmas`,
and the two logs. -/
structure BootState (σ α : Type) where
  world : σ
  paramsVect : List α
  paramArray : List (List α)
  paramSigmas : List α
  calls : List (Call α)
  stdout : List (Output α)

/-- Body of `for (i = 0; i < nParams; i++) paramsVect[i] = bestfitParams[i];`. -/
def resetStep {α : Type} (bestfitParams : List α) (i : Nat) (paramsVect : List α) :
    Except Fault (List α) :=
  match readAt bestfitParams i with
  | .error e => .error e
  | .ok x => .ok (paramsVect.set i x)

/-- Body of `for (i = 0; i < nParams; i++) paramArray[i][nIter] = paramsVect[i];`. -/
def storeStep {α : Type} (paramsVect : List α) (nIter : Nat) (i : Nat)
    (paramArray : List (List α)) : Except Fault (List (List α)) :=
  match readAt paramsVect i with
  | .error e => .error e
  | .ok x =>
    match readAt paramArray i with
    | .error e => .error e
    | .ok row =>
      if nIter < row.length then .ok (paramArray.set i (row.set nIter x))
      else .error .outOfBounds

/-- What the minimiser call of one bootstrap iteration leaves behind: `status`, the working
vector `paramsVect`, the world, and the log entry of the call. -/
structure Refit (σ α : Type) where
  status : Int
  paramsVect : List α
  world : σ
  call : Call α

/-- The minimiser call inside the bootstrap loop (the `if`/`#ifndef NO_NLOPT` cascade). The
log `stdout` of `BootstrapErrors` holds its own `printf`s only; what `DiffEvolnFit` prints stays
in its `DEOutcome`. -/
def refit {σ α S : Type} [Zero α] (ext : Externals σ α S) (nParams nFreeParams nValidPixels : Int)
    (paramsVect : List α) (parameterLimits : Option (List (mp_par α))) (theModel : σ) (ftol : α)
    (paramLimitsExist : Bool) (whichStatistic : Int) (verboseLevel : Int) :
    Except Fault (Refit σ α) :=
  if whichStatistic = ext.FITSTAT_CHISQUARE ∨ whichStatistic = ext.FITSTAT_MODCASH then
    let r := ext.LevMarFit nParams nFreeParams nValidPixels paramsVect parameterLimits theModel
      ftol paramLimitsExist verboseLevel
    .ok { status := r.status, paramsVect := r.paramVector, world := r.world
          call := Call.fit Backend.LevMar paramsVect verboseLevel r.status r.paramVector [] }
  else if ext.NO_NLOPT = false then
    let r := ext.NMSimplexFit nParams paramsVect parameterLimits theModel ftol verboseLevel
    .ok { status := r.status, paramsVect := r.paramVector, world := r.world
          call := Call.fit Backend.NMSimplex paramsVect verboseLevel r.status r.paramVector [] }
  else
    match DiffEvolnFit ext.de ext.GetFitStatistic nParams paramsVect parameterLimits theModel
        ftol verboseLevel with
    | .error e => .error e
    | .ok r =>
      .ok { status := r.status, paramsVect := r.paramVector, world := r.world
            call := Call.fit Backend.DiffEvoln paramsVect verboseLevel r.status r.paramVector
              r.solver }

/-- Body of the loop `for (nIter = 0; nIter < nIterations; nIter++)` of `BootstrapErrors`. -/
def bootstrapIteration {σ α S : Type} [Zero α] (ext : Externals σ α S) (bestfitParams : List α)
    (parameterLimits : Option (List (mp_par α))) (paramLimitsExist : Bool) (ftol : α)
    (nFreeParams whichStatistic nParams nValidPixels verboseLevel : Int) (nIter : Nat)
    (s : BootState σ α) : Except Fault (BootState σ α) :=
  let resampled := ext.MakeBootstrapSample s.world
  match forLoop (resetStep bestfitParams) nParams.toNat s.paramsVect with
  | .error e => .error e
  | .ok start =>
    match refit ext nParams nFreeParams nValidPixels start parameterLimits resampled ftol
        paramLimitsExist whichStatistic verboseLevel with
    | .error e => .error e
    | .ok fitted =>
      match forLoop (storeStep fitted.paramsVect nIter) nParams.toNat s.paramArray with
      | .error e => .error e
      | .ok filled =>
        .ok { s with
              world := fitted.world
              paramsVect := fitted.paramsVect
              paramArray := filled
              calls := s.calls ++ [Call.MakeBootstrapSample, fitted.call]
              stdout := s.stdout ++ [Output.iteration (nIter + 1)] }

/-- Body of `for (i = 0; i < nParams; i++) paramSigmas[i] = StandardDeviation(paramArray[i],
nIterations);`. -/
def sigmaStep {σ α S : Type} (ext : Externals σ α S) (nIterations : Int) (i : Nat)
    (s : BootState σ α) : Except Fault (BootState σ α) :=
  match readAt s.paramArray i with
  | .error e => .error e
  | .ok row =>
    .ok { s with
          paramSigmas := s.paramSigmas.set i (ext.StandardDeviation row nIterations)
          calls := s.calls ++ [Call.StandardDeviation row nIterations] }

/-- The `else` branch of the report loop: the "[fixed parameter]" line. -/
def reportFixed {σ α S : Type} (ext : Externals σ α S) (bestfitParams : List α) (i : Nat)
    (s : BootState σ α) : Except Fault (BootState σ α) :=
  match readAt bestfitParams i with
  | .error e => .error e
  | .ok best =>
    .ok { s with
          stdout := s.stdout ++ [Output.fixedParameter (ext.GetParameterName s.world i) best] }

/-- The `then` branch of the report loop: `ConfidenceInterval` on row `i` (which is left
sorted), then the statistics line. -/
def reportInterval {σ α S : Type} [Sub α] [Div α] [OfNat α 2] [LE α]
    [DecidableRel (fun a b : α => a ≤ b)] (ext : Externals σ α S) (bestfitParams : List α)
    (nIterations : Int) (i : Nat) (s : BootState σ α) : Except Fault (BootState σ α) :=
  match readAt s.paramArray i with
  | .error e => .error e
  | .ok row =>
    match ConfidenceInterval ext.intervalIndices row nIterations with
    | .error e => .error e
    | .ok ci =>
      let lower := ci.2.1
      let upper := ci.2.2
      match readAt bestfitParams i with
      | .error e => .error e
      | .ok best =>
        let plus := upper - best
        let minus := best - lower
        let halfwidth := (upper - lower) / 2
        match readAt s.paramSigmas i with
        | .error e => .error e
        | .ok sigma =>
          .ok { s with
                paramArray := s.paramArray.set i ci.1
                calls := s.calls ++ [Call.ConfidenceInterval row nIterations,
                                     Call.Mean ci.1 nIterations]
                stdout := s.stdout ++ [Output.statistics (ext.GetParameterName s.world i) best
                  plus minus lower upper halfwidth (ext.Mean ci.1 nIterations) sigma] }

/-- Body of the report loop `for (i = 0; i < nParams; i++)` with the test
`(paramLimitsExist) && (parameterLimits[i].fixed == 0)`. -/
def reportStep {σ α S : Type} [Sub α] [Div α] [OfNat α 2] [LE α]
    [DecidableRel (fun a b : α => a ≤ b)] (ext : Externals σ α S) (bestfitParams : List α)
    (parameterLimits : Option (List (mp_par α))) (paramLimitsExist : Bool) (nIterations : Int)
    (i : Nat) (s : BootState σ α) : Except Fault (BootState σ α) :=
  if paramLimitsExist = true then
    match parameterLimits with
    | none => .error .nullPointer
    | some table =>
      match readAt table i with
      | .error e => .error e
      | .ok p =>
        if p.fixed = 0 then reportInterval ext bestfitParams nIterations i s
        else reportFixed ext bestfitParams i s
  else reportFixed ext bestfitParams i s

/-- Body of the inner loop of the file output: the value `paramArray[i][nIter]` is appended
to the current line. -/
def lineStep {α : Type} (paramArray : List (List α)) (nIter : Nat) (i : Nat) (line : List α) :
    Except Fault (List α) :=
  match readAt paramArray i with
  | .error e => .error e
  | .ok row =>
    match readAt row nIter with
    | .error e => .error e
    | .ok x => .ok (line ++ [x])

/-- Body of the outer loop of the file output: one line per `nIter`. -/
def fileStep {α : Type} (paramArray : List (List α)) (nParams : Nat) (nIter : Nat)
    (rows : List (List α)) : Except Fault (List (List α)) :=
  match forLoop (lineStep paramArray nIter) nParams [] with
  | .error e => .error e
  | .ok line => .ok (rows ++ [line])

/-- The block `if (filenameLength > 0) { ... }`: the file written, if any. Writing through the
`NULL` handle of a failed `fopen` is undefined behaviour. -/
def saveSamples {σ α S : Type} (ext : Externals σ α S) (world : σ) (paramArray : List (List α))
    (nParams nIterations : Nat) (outputFileName : String) :
    Except Fault (Option (FileWrite α)) :=
  if 0 < outputFileName.length then
    if ext.fopen outputFileName = true then
      match forLoop (fileStep paramArray nParams) nIterations [] with
      | .error e => .error e
      | .ok rows =>
        .ok (some { name := outputFileName, header := ext.GetParamHeader world, rows := rows })
    else .error .nullPointer
  else .ok none

/-- What a run of `BootstrapErrors` leaves behind. `samples` is the sample matrix
`paramArray` at the end of the iterations loop, `paramArray` the same matrix when the function
returns (just before it is freed); `bestfitParams` and `parameterLimits` are the caller's
arrays at return. -/
structure BootstrapRun (σ α : Type) where
  world : σ
  calls : List (Call α)
  stdout : List (Output α)
  samples : List (List α)
  paramArray : List (List α)
  paramSigmas : List α
  file : Option (FileWrite α)
  bestfitParams : List α
  parameterLimits : Option (List (mp_par α))

/-- The solver named in the "Starting bootstrap iterations" line. -/
def startBanner {σ α S : Type} (ext : Externals σ α S) (whichStatistic : Int) : String :=
  if whichStatistic = ext.FITSTAT_CHISQUARE ∨ whichStatistic = ext.FITSTAT_MODCASH then
    "\nStarting bootstrap iterations (L-M solver): "
  else if ext.NO_NLOPT = false then
    "\nStarting bootstrap iterations (N-M simplex solver): "
  else
    "\nStarting bootstrap iterations (DE solver): "

/-- `BootstrapErrors( bestfitParams, parameterLimits, paramLimitsExist, theModel, ftol,
nIterations, nFreeParams, whichStatistic, outputFileName )`. The freshly `malloc`ed
`paramsVect` holds indeterminate values, given here as `indeterminate`. -/
def BootstrapErrors {σ α S : Type} [Zero α] [Sub α] [Div α] [OfNat α 2] [LE α]
    [DecidableRel (fun a b : α => a ≤ b)] (ext : Externals σ α S) (indeterminate : α)
    (bestfitParams : List α) (parameterLimits : Option (List (mp_par α)))
    (paramLimitsExist : Bool) (theModel : σ) (ftol : α) (nIterations nFreeParams : Int)
    (whichStatistic : Int) (outputFileName : String) : Except Fault (BootstrapRun σ α) :=
  let nParams := ext.GetNParams theModel
  let nValidPixels := ext.GetNValidPixels theModel
  let verboseLevel : Int := -1
  let seed := toUnsignedLong ext.time
  let start : BootState σ α :=
    { world := ext.UseBootstrap (ext.init_genrand seed theModel)
      paramsVect := List.replicate nParams.toNat indeterminate
      paramArray := List.replicate nParams.toNat (List.replicate nIterations.toNat 0)
      paramSigmas := List.replicate nParams.toNat 0
      calls := [Call.init_genrand seed, Call.UseBootstrap]
      stdout := [Output.text (startBanner ext whichStatistic)] }
  match forLoop (bootstrapIteration ext bestfitParams parameterLimits paramLimitsExist ftol
      nFreeParams whichStatistic nParams nValidPixels verboseLevel) nIterations.toNat start with
  | .error e => .error e
  | .ok looped =>
    match forLoop (sigmaStep ext nIterations) nParams.toNat looped with
    | .error e => .error e
    | .ok withSigmas =>
      let heading : BootState σ α :=
        { withSigmas with
          stdout := withSigmas.stdout ++
            [Output.text "\nStatistics for parameter values from bootstrap resampling",
             Output.rounds nIterations,
             Output.text "Best-fit\t\t Bootstrap      [68% conf.int., half-width]; (mean +/- standard deviation)\n"] }
      match forLoop (reportStep ext bestfitParams parameterLimits paramLimitsExist nIterations)
          nParams.toNat heading with
      | .error e => .error e
      | .ok reported =>
        match saveSamples ext reported.world reported.paramArray nParams.toNat
            nIterations.toNat outputFileName with
        | .error e => .error e
        | .ok file =>
          .ok { world := reported.world
                calls := reported.calls
                stdout := reported.stdout ++
                  (if 0 < outputFileName.length then [Output.writing outputFileName] else [])
                samples := looped.paramArray
                paramArray := reported.paramArray
                paramSigmas := reported.paramSigmas
                file := file
                bestfitParams := bestfitParams
                parameterLimits := parameterLimits }

/-! ## print_results.cpp -/

/-- How a call of `SaveParameters` ends: in `exit(status)` after the given output on `stderr`,
with nothing written to any file, or by returning after the given pieces of text (one per
`fprintf`, then what `PrintModelParams` prints) were written to the opened file. -/
inductive SaveOutcome where
  | exited (status : Int) (stderr : List String)
  | returned (fileName : String) (text : List String)
deriving DecidableEq, Repr

/-- Body of `for (int i = 0; i < argc; i++) fprintf(file_ptr, " %s", argv[i]);`. -/
def argvStep (argv : List String) (i : Nat) (text : List String) : Except Fault (List String) :=
  match readAt argv i with
  | .error e => .error e
  | .ok arg => .ok (text ++ [" " ++ arg])

/-- `SaveParameters( params, model, parameterInfo, outputFilename, argc, argv )`. What the
function uses from other files is given as parameters: `fopen` (whether the named file can be
opened), the string `TimeStamp()` returns, and the text `model->PrintModelParams` prints. -/
def SaveParameters {σ α : Type} (fopen : String → Bool) (TimeStamp : String)
    (PrintModelParams : List α → σ → List String) (params : List α) (model : σ)
    (parameterInfo : Option (List (mp_par α))) (outputFilename : String) (argc : Int)
    (argv : List String) : Except Fault SaveOutcome :=
  if fopen outputFilename = false then
    .ok (SaveOutcome.exited (-1) ["\n   Couldn't open file \"" ++ outputFilename ++ "\"\n\n"])
  else
    match forLoop (argvStep argv) argc.toNat
        ["# Best-fit model results for imfit\n",
         "# Generated on " ++ TimeStamp ++ " by the following command:\n#   "] with
    | .error e => .error e
    | .ok text =>
      .ok (SaveOutcome.returned outputFilename
        (text ++ ["\n\n"] ++ PrintModelParams params model))

/-! ## A small concrete instance

World: one integer, the state of the random generator (seeded by `init_genrand`, advanced by
every resampling). Values: integers. -/

/-- A DE solver whose state is its best member: `Setup` places it inside the search box, at an
offset taken from the world; `Solve` never meets the tolerance. -/
def demoSolver : DESolverLib Int Int (List Int) where
  stRandToBest1Exp := 2
  construct := fun _ _ _ => []
  Setup := fun _ lo hi _ _ _ _ w => (List.zipWith (fun a b => a + w % (b - a + 1)) lo hi, w)
  Solve := fun best _ _ w => (false, best, w + 1)
  StoreSolution := fun best v => ⟨(List.range v.length).map (fun i => best.getD i 0), by simp⟩

/-- Whether entry `i` of the limits table is marked fixed. -/
def demoFixed (parameterLimits : Option (List (mp_par Int))) (i : Nat) : Bool :=
  match parameterLimits with
  | none => false
  | some table =>
    match table[i]? with
    | none => false
    | some p => decide (p.fixed = 1)

/-- A minimiser that moves every parameter that is not fixed by the world's value: down at
even positions, up at odd ones. -/
def demoFit (status : Int) (v : List Int) (parameterLimits : Option (List (mp_par Int)))
    (w : Int) : FitReturn Int Int v.length where
  status := status
  paramVector := (List.range v.length).map (fun i =>
    if demoFixed parameterLimits i then v.getD i 0
    else if i % 2 = 0 then v.getD i 0 - w else v.getD i 0 + w)
  length_eq := by simp
  world := w

/-- The concrete externals: `clock` is what `time(NULL)` returns, `noNlopt` the build flag. -/
def demoExt (clock : Int) (noNlopt : Bool) : Externals Int Int (List Int) where
  FITSTAT_CHISQUARE := 1
  FITSTAT_MODCASH := 3
  NO_NLOPT := noNlopt
  time := clock
  init_genrand := fun seed _ => seed
  GetNParams := fun _ => 2
  GetNValidPixels := fun _ => 100
  UseBootstrap := fun w => w
  MakeBootstrapSample := fun w => w + 1
  GetFitStatistic := fun _ w => (0, w)
  GetParameterName := fun _ i => if i = 0 then "a" else "b"
  GetParamHeader := fun _ => "a\tb"
  LevMarFit := fun _ _ _ v table w _ exist _ => demoFit 1 v (if exist then table else none) w
  NMSimplexFit := fun _ v table w _ _ => demoFit 0 v table w
  de := demoSolver
  StandardDeviation := fun _ _ => 0
  Mean := fun vals _ => vals.sum
  intervalIndices := fun nVals => (0, nVals - 1)
  fopen := fun _ => true

/-- A limits table: both parameters free, with bounds `[0, 9]` and `[10, 19]`. -/
def demoFree : List (mp_par Int) :=
  [⟨0, (1, 1), (0, 9)⟩, ⟨0, (1, 1), (10, 19)⟩]

/-- A limits table: the second parameter is free and has no upper bound. -/
def demoUnbounded : List (mp_par Int) :=
  [⟨1, (0, 0), (0, 0)⟩, ⟨0, (1, 0), (10, 0)⟩]

/-- A limits table for five parameters, the second and the fourth fixed. -/
def demoFive : List (mp_par Int) :=
  [⟨0, (1, 1), (0, 9)⟩, ⟨1, (0, 0), (0, 0)⟩, ⟨0, (1, 1), (10, 19)⟩, ⟨1, (0, 0), (0, 0)⟩,
   ⟨0, (1, 1), (20, 29)⟩]

/-- The concrete externals at clock reading 5 with NLopt, on a system where no file can be
opened. -/
def demoExtNoFile : Externals Int Int (List Int) :=
  { demoExt 5 false with fopen := fun _ => false }

/-! ## Vocabulary of the theorems -/

/-- The minimiser a log entry names, if the entry is a `fit`. -/
def Call.backend? {α : Type} : Call α → Option Backend
  | .fit backend _ _ _ _ _ => some backend
  | _ => none

/-- Whether a log entry is a call of one of the statistics helpers. -/
def Call.isStatistic {α : Type} : Call α → Bool
  | .StandardDeviation _ _ => true
  | .ConfidenceInterval _ _ => true
  | .Mean _ _ => true
  | _ => false

/-- The two log entries of one bootstrap iteration: the resampling and the minimiser call. -/
def iterationCalls {σ α : Type} (r : Refit σ α) : List (Call α) :=
  [Call.MakeBootstrapSample, r.call]

/-- A call of `BootstrapErrors` that stays clear of undefined behaviour: `bestfitParams` and
the limits table (when there is one) hold at least `nParams` entries, `paramLimitsExist` is
only set when there is a table, `POP_SIZE_PER_PARAMETER * nParams` is an `int`, and the output
file, when one is asked for, can be opened. -/
def Defined {σ α S : Type} (ext : Externals σ α S) (bestfitParams : List α)
    (parameterLimits : Option (List (mp_par α))) (paramLimitsExist : Bool) (theModel : σ)
    (outputFileName : String) : Prop :=
  (ext.GetNParams theModel).toNat ≤ bestfitParams.length ∧
  (∀ table, parameterLimits = some table → (ext.GetNParams theModel).toNat ≤ table.length) ∧
  (paramLimitsExist = true → parameterLimits ≠ none) ∧
  (INT_MIN ≤ POP_SIZE_PER_PARAMETER * ext.GetNParams theModel ∧
    POP_SIZE_PER_PARAMETER * ext.GetNParams theModel ≤ INT_MAX) ∧
  (0 < outputFileName.length → ext.fopen outputFileName = true)

/-- Every confidence interval the report asks for can be read: if some parameter has
`fixed == 0` in an existing limits table, the two indices at which `ConfidenceInterval` reads
the sorted row of `nIterations` values lie inside that row. -/
def IntervalsDefined {σ α S : Type} (ext : Externals σ α S)
    (parameterLimits : Option (List (mp_par α))) (paramLimitsExist : Bool) (theModel : σ)
    (nIterations : Int) : Prop :=
  ∀ (table : List (mp_par α)) (p : mp_par α), paramLimitsExist = true →
    parameterLimits = some table → p ∈ table.take (ext.GetNParams theModel).toNat →
    p.fixed = 0 →
    0 ≤ (ext.intervalIndices nIterations).1 ∧ (ext.intervalIndices nIterations).1 < nIterations ∧
    0 ≤ (ext.intervalIndices nIterations).2 ∧ (ext.intervalIndices nIterations).2 < nIterations

/-- Whether a log entry is a call of a statistics helper that is handed the count `nVals`
together with an array of exactly that many values. -/
def Call.statisticOfLength {α : Type} (nVals : Int) : Call α → Prop
  | .StandardDeviation vals n => n = nVals ∧ vals.length = nVals.toNat
  | .ConfidenceInterval vals n => n = nVals ∧ vals.length = nVals.toNat
  | .Mean vals n => n = nVals ∧ vals.length = nVals.toNat
  | _ => False

/-! ## Lemmas on the loops -/

theorem readAt_of_getElem? {β : Type} {xs : List β} {i : Nat} {x : β} (h : xs[i]? = some x) :
    readAt xs i = .ok x := by
  simp [readAt, h]

theorem readAt_of_lt {β : Type} {xs : List β} {i : Nat} (h : i < xs.length) :
    readAt xs i = .ok xs[i] := by
  simp [readAt, List.getElem?_eq_getElem h]

theorem forLoop_invariant {β : Type} (body : Nat → β → Except Fault β) (Inv : Nat → β → Prop)
    (n : Nat) (s : β) (h0 : Inv 0 s)
    (hstep : ∀ i, i < n → ∀ t, Inv i t → ∃ t', body i t = .ok t' ∧ Inv (i + 1) t') :
    ∃ t, forLoop body n s = .ok t ∧ Inv n t := by
  induction n with
  | zero => exact ⟨s, rfl, h0⟩
  | succ k ih =>
    obtain ⟨t, ht, hInv⟩ := ih (fun i hi => hstep i (Nat.lt_succ_of_lt hi))
    obtain ⟨t', ht', hInv'⟩ := hstep k (Nat.lt_succ_self k) t hInv
    exact ⟨t', by simp [forLoop, ht, ht'], hInv'⟩

theorem scanLimits_table {α : Type} [Zero α] (nParamsTot : Int) (paramVector : List α)
    (table : List (mp_par α)) (hT : nParamsTot.toNat ≤ table.length)
    (hV : nParamsTot.toNat ≤ paramVector.length) :
    ∃ scan, scanLimits nParamsTot paramVector (some table) = .ok scan ∧
      scan.minParamValues.length = nParamsTot.toNat ∧
      scan.maxParamValues.length = nParamsTot.toNat ∧
      scan.nFreeParameters
        = nParamsTot - ((table.take nParamsTot.toNat).countP (fun p => p.fixed = 1) : Nat) ∧
      scan.paramLimitsOK = (table.take nParamsTot.toNat).all
        (fun p => decide (p.fixed = 1 ∨ (p.limited.1 = 1 ∧ p.limited.2 = 1))) ∧
      ∀ i, i < nParamsTot.toNat → ∀ p, table[i]? = some p →
        (p.fixed = 1 → scan.minParamValues[i]? = paramVector[i]? ∧
          scan.maxParamValues[i]? = paramVector[i]?) ∧
        (p.fixed ≠ 1 → p.limited.1 = 1 ∧ p.limited.2 = 1 →
          scan.minParamValues[i]? = some p.limits.1 ∧
          scan.maxParamValues[i]? = some p.limits.2) := by
  unfold scanLimits
  simp only
  obtain ⟨t, ht, h1, h2, h3, h4, h5⟩ := forLoop_invariant (limitsStep paramVector table)
    (fun k scan =>
      scan.minParamValues.length = nParamsTot.toNat ∧
      scan.maxParamValues.length = nParamsTot.toNat ∧
      scan.nFreeParameters
        = nParamsTot - ((table.take k).countP (fun p => p.fixed = 1) : Nat) ∧
      scan.paramLimitsOK = (table.take k).all
        (fun p => decide (p.fixed = 1 ∨ (p.limited.1 = 1 ∧ p.limited.2 = 1))) ∧
      ∀ i, i < k → ∀ p, table[i]? = some p →
        (p.fixed = 1 → scan.minParamValues[i]? = paramVector[i]? ∧
          scan.maxParamValues[i]? = paramVector[i]?) ∧
        (p.fixed ≠ 1 → p.limited.1 = 1 ∧ p.limited.2 = 1 →
          scan.minParamValues[i]? = some p.limits.1 ∧
          scan.maxParamValues[i]? = some p.limits.2))
    nParamsTot.toNat
    { minParamValues := List.replicate nParamsTot.toNat 0
      maxParamValues := List.replicate nParamsTot.toNat 0
      nFreeParameters := nParamsTot
      paramLimitsOK := true }
    (by simp)
    (by
      intro k hk t ⟨h1, h2, h3, h4, h5⟩
      have hkT : k < table.length := lt_of_lt_of_le hk hT
      have hkV : k < paramVector.length := lt_of_lt_of_le hk hV
      have htake : table.take (k + 1) = table.take k ++ [table[k]] := by
        rw [List.take_succ, List.getElem?_eq_getElem hkT]; rfl
      unfold limitsStep
      rw [readAt_of_lt hkT]
      simp only
      by_cases hfix : table[k].fixed = 1
      · rw [if_pos hfix, readAt_of_lt hkV]
        refine ⟨_, rfl, by simp [h1], by simp [h2], ?_, ?_, ?_⟩
        · show t.nFreeParameters - 1 = _
          rw [htake, h3, List.countP_append]; simp [hfix]; ring
        · show t.paramLimitsOK = _
          rw [htake, h4, List.all_append]; simp [hfix]
        · intro i hi p hp
          rcases Nat.lt_succ_iff_lt_or_eq.mp hi with hlt | heq
          · have hne : k ≠ i := by omega
            simp only [List.getElem?_set_ne hne]
            exact h5 i hlt p hp
          · subst heq
            have hp' : table[i] = p := by
              rw [List.getElem?_eq_getElem hkT] at hp; exact Option.some.inj hp
            subst hp'
            refine ⟨fun _ => ?_, fun h => absurd hfix h⟩
            simp [List.getElem?_set_self, h1, h2, hk, List.getElem?_eq_getElem hkV]
      · rw [if_neg hfix]
        by_cases hlim : table[k].limited.1 = 1 ∧ table[k].limited.2 = 1
        · rw [if_pos hlim]
          refine ⟨_, rfl, by simp [h1], by simp [h2], ?_, ?_, ?_⟩
          · show t.nFreeParameters = _
            rw [htake, h3, List.countP_append]; simp [hfix]
          · show t.paramLimitsOK = _
            rw [htake, h4, List.all_append]; simp [hfix, hlim]
          · intro i hi p hp
            rcases Nat.lt_succ_iff_lt_or_eq.mp hi with hlt | heq
            · have hne : k ≠ i := by omega
              simp only [List.getElem?_set_ne hne]
              exact h5 i hlt p hp
            · subst heq
              have hp' : table[i] = p := by
                rw [List.getElem?_eq_getElem hkT] at hp; exact Option.some.inj hp
              subst hp'
              refine ⟨fun h => absurd h hfix, fun _ _ => ?_⟩
              simp [List.getElem?_set_self, h1, h2, hk]
        · rw [if_neg hlim]
          refine ⟨_, rfl, h1, h2, ?_, ?_, ?_⟩
          · show t.nFreeParameters = _
            rw [htake, h3, List.countP_append]; simp [hfix]
          · show false = _
            rw [htake, List.all_append]; simp [hfix]
            intro _ h; exact fun h2 => hlim ⟨h, h2⟩
          · intro i hi p hp
            rcases Nat.lt_succ_iff_lt_or_eq.mp hi with hlt | heq
            · exact h5 i hlt p hp
            · subst heq
              have hp' : table[i] = p := by
                rw [List.getElem?_eq_getElem hkT] at hp; exact Option.some.inj hp
              subst hp'
              exact ⟨fun h => absurd h hfix, fun _ h => absurd h hlim⟩)
  exact ⟨t, ht, h1, h2, h3, h4, h5⟩


/-! ## `DiffEvolnFit` -/

theorem DiffEvolnFit_of_rejected {σ α S : Type} [Zero α] (de : DESolverLib σ α S)
    (GetFitStatistic : List α → σ → α × σ) (nParamsTot : Int) (paramVector : List α)
    (parameterLimits : Option (List (mp_par α))) (theModel : σ) (ftol : α) (verbose : Int)
    (scan : LimitsScan α) (hscan : scanLimits nParamsTot paramVector parameterLimits = .ok scan)
    (hbad : scan.paramLimitsOK = false) :
    ∃ r, DiffEvolnFit de GetFitStatistic nParamsTot paramVector parameterLimits theModel ftol
        verbose = .ok r ∧
      r.status = -1 ∧ r.solver = [] ∧ r.world = theModel ∧ r.paramVector = paramVector ∧
      r.parameterLimits = parameterLimits := by
  simp only [DiffEvolnFit, hscan, hbad, if_true]
  exact ⟨_, rfl, rfl, rfl, rfl, rfl, rfl⟩

theorem DiffEvolnFit_of_accepted {σ α S : Type} [Zero α] (de : DESolverLib σ α S)
    (GetFitStatistic : List α → σ → α × σ) (nParamsTot : Int) (paramVector : List α)
    (parameterLimits : Option (List (mp_par α))) (theModel : σ) (ftol : α) (verbose : Int)
    (scan : LimitsScan α) (hscan : scanLimits nParamsTot paramVector parameterLimits = .ok scan)
    (hgood : scan.paramLimitsOK = true)
    (hpop : INT_MIN ≤ POP_SIZE_PER_PARAMETER * scan.nFreeParameters ∧
      POP_SIZE_PER_PARAMETER * scan.nFreeParameters ≤ INT_MAX) :
    ∃ r met, DiffEvolnFit de GetFitStatistic nParamsTot paramVector parameterLimits theModel ftol
        verbose = .ok r ∧
      r.status = 1 ∧
      r.solver = [SolverCall.construct nParamsTot (POP_SIZE_PER_PARAMETER * scan.nFreeParameters),
        SolverCall.Setup scan.minParamValues scan.maxParamValues de.stRandToBest1Exp ⟨85, -2⟩
          ⟨10, -1⟩ ftol,
        SolverCall.Solve MAX_DE_GENERATIONS verbose met,
        SolverCall.StoreSolution] ∧
      r.paramVector = (de.StoreSolution (de.Solve (de.Setup
        (de.construct nParamsTot (POP_SIZE_PER_PARAMETER * scan.nFreeParameters)
          (EnergyFunction GetFitStatistic))
        scan.minParamValues scan.maxParamValues de.stRandToBest1Exp ⟨85, -2⟩ ⟨10, -1⟩ ftol
        theModel).1 MAX_DE_GENERATIONS verbose (de.Setup
        (de.construct nParamsTot (POP_SIZE_PER_PARAMETER * scan.nFreeParameters)
          (EnergyFunction GetFitStatistic))
        scan.minParamValues scan.maxParamValues de.stRandToBest1Exp ⟨85, -2⟩ ⟨10, -1⟩ ftol
        theModel).2).2.1 paramVector).val ∧
      r.parameterLimits = parameterLimits := by
  simp only [DiffEvolnFit, hscan, hgood, intMul, hpop, and_self, if_true, Bool.true_eq_false,
    if_false]
  exact ⟨_, _, rfl, rfl, rfl, rfl, rfl⟩

theorem scanLimits_none {α : Type} [Zero α] (nParamsTot : Int) (paramVector : List α) :
    ∃ scan, scanLimits nParamsTot paramVector none = .ok scan ∧ scan.paramLimitsOK = false :=
  ⟨_, rfl, rfl⟩

theorem nFree_in_range {α : Type} (nParamsTot : Int) (table : List (mp_par α))
    (hint : INT_MIN ≤ POP_SIZE_PER_PARAMETER * nParamsTot ∧
      POP_SIZE_PER_PARAMETER * nParamsTot ≤ INT_MAX) :
    INT_MIN ≤ POP_SIZE_PER_PARAMETER *
        (nParamsTot - ((table.take nParamsTot.toNat).countP (fun p => p.fixed = 1) : Nat)) ∧
      POP_SIZE_PER_PARAMETER *
        (nParamsTot - ((table.take nParamsTot.toNat).countP (fun p => p.fixed = 1) : Nat))
        ≤ INT_MAX := by
  have h1 : (table.take nParamsTot.toNat).countP (fun p => p.fixed = 1) ≤ nParamsTot.toNat :=
    le_trans (List.countP_le_length _) (by simp)
  unfold INT_MIN INT_MAX POP_SIZE_PER_PARAMETER at *
  omega

/-- Every call of `DiffEvolnFit` that reads its arrays in range returns: with status `1`
after running the solver when the limits are complete, with status `-1` and nothing touched
otherwise. -/
theorem DiffEvolnFit_outcome {σ α S : Type} [Zero α] (de : DESolverLib σ α S)
    (GetFitStatistic : List α → σ → α × σ) (nParamsTot : Int) (paramVector : List α)
    (parameterLimits : Option (List (mp_par α))) (theModel : σ) (ftol : α) (verbose : Int)
    (hlen : ∀ table, parameterLimits = some table →
      nParamsTot.toNat ≤ table.length ∧ nParamsTot.toNat ≤ paramVector.length)
    (hint : INT_MIN ≤ POP_SIZE_PER_PARAMETER * nParamsTot ∧
      POP_SIZE_PER_PARAMETER * nParamsTot ≤ INT_MAX) :
    ∃ r scan, DiffEvolnFit de GetFitStatistic nParamsTot paramVector parameterLimits theModel
        ftol verbose = .ok r ∧
      scanLimits nParamsTot paramVector parameterLimits = .ok scan ∧
      r.parameterLimits = parameterLimits ∧
      r.paramVector.length = paramVector.length ∧
      ((scan.paramLimitsOK = false ∧ r.status = -1 ∧ r.solver = [] ∧ r.world = theModel ∧
          r.paramVector = paramVector) ∨
        (scan.paramLimitsOK = true ∧ r.status = 1 ∧
          (∃ met, r.solver =
            [SolverCall.construct nParamsTot (POP_SIZE_PER_PARAMETER * scan.nFreeParameters),
             SolverCall.Setup scan.minParamValues scan.maxParamValues de.stRandToBest1Exp
               ⟨85, -2⟩ ⟨10, -1⟩ ftol,
             SolverCall.Solve MAX_DE_GENERATIONS verbose met,
             SolverCall.StoreSolution]) ∧
          r.paramVector = (de.StoreSolution (de.Solve (de.Setup
            (de.construct nParamsTot (POP_SIZE_PER_PARAMETER * scan.nFreeParameters)
              (EnergyFunction GetFitStatistic))
            scan.minParamValues scan.maxParamValues de.stRandToBest1Exp ⟨85, -2⟩ ⟨10, -1⟩ ftol
            theModel).1 MAX_DE_GENERATIONS verbose (de.Setup
            (de.construct nParamsTot (POP_SIZE_PER_PARAMETER * scan.nFreeParameters)
              (EnergyFunction GetFitStatistic))
            scan.minParamValues scan.maxParamValues de.stRandToBest1Exp ⟨85, -2⟩ ⟨10, -1⟩ ftol
            theModel).2).2.1 paramVector).val)) := by
  have hscan : ∃ scan, scanLimits nParamsTot paramVector parameterLimits = .ok scan ∧
      (INT_MIN ≤ POP_SIZE_PER_PARAMETER * scan.nFreeParameters ∧
        POP_SIZE_PER_PARAMETER * scan.nFreeParameters ≤ INT_MAX) := by
    cases hlim : parameterLimits with
    | none =>
      refine ⟨_, rfl, ?_⟩
      exact hint
    | some table =>
      obtain ⟨hT, hV⟩ := hlen table hlim
      obtain ⟨scan, hs, -, -, hfree, -, -⟩ := scanLimits_table nParamsTot paramVector table hT hV
      refine ⟨scan, hs, ?_⟩
      rw [hfree]
      exact nFree_in_range nParamsTot table hint
  obtain ⟨scan, hs, hrange⟩ := hscan
  cases hok : scan.paramLimitsOK with
  | false =>
    obtain ⟨r, hr, h1, h2, h3, h4, h5⟩ := DiffEvolnFit_of_rejected de GetFitStatistic nParamsTot
      paramVector parameterLimits theModel ftol verbose scan hs hok
    exact ⟨r, scan, hr, hs, h5, by rw [h4], Or.inl ⟨hok, h1, h2, h3, h4⟩⟩
  | true =>
    obtain ⟨r, met, hr, h1, h2, h3, h4⟩ := DiffEvolnFit_of_accepted de GetFitStatistic nParamsTot
      paramVector parameterLimits theModel ftol verbose scan hs hok hrange
    refine ⟨r, scan, hr, hs, h4, ?_, Or.inr ⟨hok, h1, ⟨met, h2⟩, h3⟩⟩
    rw [h3]
    exact (de.StoreSolution _ paramVector).property

theorem scanLimits_incomplete {α : Type} [Zero α] (nParamsTot : Int) (paramVector : List α)
    (parameterLimits : Option (List (mp_par α)))
    (hbad : ∀ table, parameterLimits = some table →
      nParamsTot.toNat ≤ table.length ∧ nParamsTot.toNat ≤ paramVector.length ∧
      ∃ p ∈ table.take nParamsTot.toNat,
        p.fixed ≠ 1 ∧ (p.limited.1 ≠ 1 ∨ p.limited.2 ≠ 1)) :
    ∃ scan, scanLimits nParamsTot paramVector parameterLimits = .ok scan ∧
      scan.paramLimitsOK = false := by
  cases hlim : parameterLimits with
  | none => exact scanLimits_none nParamsTot paramVector
  | some table =>
    obtain ⟨hT, hV, p, hp, hfix, hlimited⟩ := hbad table hlim
    obtain ⟨scan, hs, -, -, -, hok, -⟩ := scanLimits_table nParamsTot paramVector table hT hV
    refine ⟨scan, hs, ?_⟩
    rw [hok, List.all_eq_false]
    refine ⟨p, hp, ?_⟩
    simp only [decide_eq_true_eq]
    rintro (h | ⟨h1, h2⟩)
    · exact hfix h
    · rcases hlimited with h | h
      · exact h h1
      · exact h h2

theorem scanLimits_complete {α : Type} [Zero α] (nParamsTot : Int) (paramVector : List α)
    (table : List (mp_par α)) (scan : LimitsScan α)
    (hT : nParamsTot.toNat ≤ table.length) (hV : nParamsTot.toNat ≤ paramVector.length)
    (hvalid : ∀ p ∈ table.take nParamsTot.toNat,
      p.fixed = 1 ∨ (p.limited.1 = 1 ∧ p.limited.2 = 1))
    (hs : scanLimits nParamsTot paramVector (some table) = .ok scan) :
    scan.paramLimitsOK = true := by
  obtain ⟨scan', hs', -, -, -, hok, -⟩ := scanLimits_table nParamsTot paramVector table hT hV
  have hsame : scan' = scan := by
    rw [hs'] at hs; exact Except.ok.inj hs
  subst hsame
  rw [hok, List.all_eq_true]
  intro p hp
  simpa using hvalid p hp

/-- C1: when the limits table is `NULL`, or some parameter that is not marked fixed lacks its
lower or its upper bound, `DiffEvolnFit` returns a negative status, makes no call on a solver
(so the fit statistic is never evaluated and the world is untouched) and leaves the parameter
vector as supplied. -/
theorem DiffEvolnFit_rejects_incomplete_limits {σ α S : Type} [Zero α] (de : DESolverLib σ α S)
    (GetFitStatistic : List α → σ → α × σ) (nParamsTot : Int) (paramVector : List α)
    (parameterLimits : Option (List (mp_par α))) (theModel : σ) (ftol : α) (verbose : Int)
    (hbad : ∀ table, parameterLimits = some table →
      nParamsTot.toNat ≤ table.length ∧ nParamsTot.toNat ≤ paramVector.length ∧
      ∃ p ∈ table.take nParamsTot.toNat,
        p.fixed ≠ 1 ∧ (p.limited.1 ≠ 1 ∨ p.limited.2 ≠ 1)) :
    ∃ r, DiffEvolnFit de GetFitStatistic nParamsTot paramVector parameterLimits theModel ftol
        verbose = .ok r ∧
      r.status < 0 ∧ r.solver = [] ∧ r.world = theModel ∧ r.paramVector = paramVector := by
  obtain ⟨scan, hs, hok⟩ := scanLimits_incomplete nParamsTot paramVector parameterLimits hbad
  obtain ⟨r, hr, h1, h2, h3, h4, -⟩ := DiffEvolnFit_of_rejected de GetFitStatistic nParamsTot
    paramVector parameterLimits theModel ftol verbose scan hs hok
  exact ⟨r, hr, by rw [h1]; decide, h2, h3, h4⟩

/-- C1 at concrete inputs: a table whose free second parameter has no upper bound, and a `NULL`
table. -/
theorem DiffEvolnFit_rejects_incomplete_limits_witness :
    (∃ r, DiffEvolnFit demoSolver (fun _ w => ((0 : Int), w)) 2 [100, 200] (some demoUnbounded)
        7 0 0 = .ok r ∧
      r.status < 0 ∧ r.solver = [] ∧ r.world = 7 ∧ r.paramVector = [100, 200]) ∧
    (∃ r, DiffEvolnFit demoSolver (fun _ w => ((0 : Int), w)) 2 [100, 200] none
        7 0 0 = .ok r ∧
      r.status < 0 ∧ r.solver = [] ∧ r.world = 7 ∧ r.paramVector = [100, 200]) :=
  ⟨DiffEvolnFit_rejects_incomplete_limits demoSolver (fun _ w => ((0 : Int), w)) 2 [100, 200]
      (some demoUnbounded) 7 0 0
      (by
        intro table h
        cases h
        exact ⟨by decide, by decide, ⟨0, (1, 0), (10, 0)⟩, by decide, by decide, by decide⟩),
   DiffEvolnFit_rejects_incomplete_limits demoSolver (fun _ w => ((0 : Int), w)) 2 [100, 200]
      none 7 0 0 (by intro table h; cases h)⟩

/-- C2: when the limits table passes validation, the bound arrays handed to the solver's
`Setup` hold, at every index, the supplied current value twice for a fixed parameter and the
table's lower and upper limit for any other; the limits table is unchanged. -/
theorem DiffEvolnFit_bounds_handed_to_solver {σ α S : Type} [Zero α] (de : DESolverLib σ α S)
    (GetFitStatistic : List α → σ → α × σ) (nParamsTot : Int) (paramVector : List α)
    (table : List (mp_par α)) (theModel : σ) (ftol : α) (verbose : Int)
    (hT : nParamsTot.toNat ≤ table.length) (hV : nParamsTot.toNat ≤ paramVector.length)
    (hvalid : ∀ p ∈ table.take nParamsTot.toNat,
      p.fixed = 1 ∨ (p.limited.1 = 1 ∧ p.limited.2 = 1))
    (hint : INT_MIN ≤ POP_SIZE_PER_PARAMETER * nParamsTot ∧
      POP_SIZE_PER_PARAMETER * nParamsTot ≤ INT_MAX) :
    ∃ r pop lo hi met, DiffEvolnFit de GetFitStatistic nParamsTot paramVector (some table)
        theModel ftol verbose = .ok r ∧
      r.solver = [SolverCall.construct nParamsTot pop,
        SolverCall.Setup lo hi de.stRandToBest1Exp ⟨85, -2⟩ ⟨10, -1⟩ ftol,
        SolverCall.Solve MAX_DE_GENERATIONS verbose met,
        SolverCall.StoreSolution] ∧
      lo.length = nParamsTot.toNat ∧ hi.length = nParamsTot.toNat ∧
      (∀ i p, i < nParamsTot.toNat → table[i]? = some p →
        (p.fixed = 1 → lo[i]? = paramVector[i]? ∧ hi[i]? = paramVector[i]?) ∧
        (p.fixed ≠ 1 → lo[i]? = some p.limits.1 ∧ hi[i]? = some p.limits.2)) ∧
      r.parameterLimits = some table := by
  obtain ⟨r, scan, hr, hs, hlim, -, hcase⟩ := DiffEvolnFit_outcome de GetFitStatistic nParamsTot
    paramVector (some table) theModel ftol verbose
    (by intro t ht; cases ht; exact ⟨hT, hV⟩) hint
  have hgood := scanLimits_complete nParamsTot paramVector table scan hT hV hvalid hs
  obtain ⟨scan', hs', hlo, hhi, -, -, hbounds⟩ :=
    scanLimits_table nParamsTot paramVector table hT hV
  have hsame : scan' = scan := by
    rw [hs'] at hs; exact Except.ok.inj hs
  subst hsame
  rcases hcase with ⟨hfalse, -⟩ | ⟨-, -, ⟨met, hsolver⟩, -⟩
  · rw [hgood] at hfalse; cases hfalse
  · refine ⟨r, _, _, _, met, hr, hsolver, hlo, hhi, ?_, hlim⟩
    intro i p hi hp
    obtain ⟨hfixed, hfree⟩ := hbounds i hi p hp
    refine ⟨hfixed, fun hne => hfree hne ?_⟩
    have hmem : p ∈ table.take nParamsTot.toNat := by
      rw [List.mem_iff_getElem?]
      exact ⟨i, by rw [List.getElem?_take_of_lt hi]; exact hp⟩
    rcases hvalid p hmem with h | h
    · exact absurd h hne
    · exact h

/-- C2 at a concrete input: five parameters, the second and the fourth fixed. -/
theorem DiffEvolnFit_bounds_handed_to_solver_witness :
    ∃ r pop lo hi met, DiffEvolnFit demoSolver (fun _ w => ((0 : Int), w)) 5 [1, 2, 3, 4, 5]
        (some demoFive) 7 0 0 = .ok r ∧
      r.solver = [SolverCall.construct 5 pop,
        SolverCall.Setup lo hi demoSolver.stRandToBest1Exp ⟨85, -2⟩ ⟨10, -1⟩ 0,
        SolverCall.Solve MAX_DE_GENERATIONS 0 met,
        SolverCall.StoreSolution] ∧
      lo.length = (5 : Int).toNat ∧ hi.length = (5 : Int).toNat ∧
      (∀ i p, i < (5 : Int).toNat → demoFive[i]? = some p →
        (p.fixed = 1 → lo[i]? = [1, 2, 3, 4, 5][i]? ∧ hi[i]? = [1, 2, 3, 4, 5][i]?) ∧
        (p.fixed ≠ 1 → lo[i]? = some p.limits.1 ∧ hi[i]? = some p.limits.2)) ∧
      r.parameterLimits = some demoFive :=
  DiffEvolnFit_bounds_handed_to_solver demoSolver (fun _ w => ((0 : Int), w)) 5 [1, 2, 3, 4, 5]
    demoFive 7 0 0 (by decide) (by decide) (by decide) (by decide)

/-- C3: when the limits table passes validation, the population size given to the solver's
constructor is 10 times the number of parameters that are not fixed. -/
theorem DiffEvolnFit_population_size {σ α S : Type} [Zero α] (de : DESolverLib σ α S)
    (GetFitStatistic : List α → σ → α × σ) (nParamsTot : Int) (paramVector : List α)
    (table : List (mp_par α)) (theModel : σ) (ftol : α) (verbose : Int)
    (hT : nParamsTot.toNat ≤ table.length) (hV : nParamsTot.toNat ≤ paramVector.length)
    (hvalid : ∀ p ∈ table.take nParamsTot.toNat,
      p.fixed = 1 ∨ (p.limited.1 = 1 ∧ p.limited.2 = 1))
    (hcount : 0 ≤ nParamsTot) (hint : POP_SIZE_PER_PARAMETER * nParamsTot ≤ INT_MAX) :
    ∃ r rest, DiffEvolnFit de GetFitStatistic nParamsTot paramVector (some table)
        theModel ftol verbose = .ok r ∧
      r.solver = SolverCall.construct nParamsTot
        (10 * ((table.take nParamsTot.toNat).countP (fun p => p.fixed ≠ 1) : Nat)) :: rest := by
  have hint' : INT_MIN ≤ POP_SIZE_PER_PARAMETER * nParamsTot ∧
      POP_SIZE_PER_PARAMETER * nParamsTot ≤ INT_MAX := by
    refine ⟨?_, hint⟩
    unfold INT_MIN POP_SIZE_PER_PARAMETER
    omega
  obtain ⟨r, scan, hr, hs, -, -, hcase⟩ := DiffEvolnFit_outcome de GetFitStatistic nParamsTot
    paramVector (some table) theModel ftol verbose
    (by intro t ht; cases ht; exact ⟨hT, hV⟩) hint'
  have hgood := scanLimits_complete nParamsTot paramVector table scan hT hV hvalid hs
  obtain ⟨scan', hs', -, -, hfree, -, -⟩ :=
    scanLimits_table nParamsTot paramVector table hT hV
  have hsame : scan' = scan := by
    rw [hs'] at hs; exact Except.ok.inj hs
  subst hsame
  have hsplit := List.length_eq_countP_add_countP (fun p : mp_par α => decide (p.fixed = 1))
    (table.take nParamsTot.toNat)
  have hlen : (table.take nParamsTot.toNat).length = nParamsTot.toNat := by
    simp [List.length_take, hT]
  have hnot : (table.take nParamsTot.toNat).countP (fun p => decide (p.fixed ≠ 1))
      = (table.take nParamsTot.toNat).countP (fun p => ¬ decide (p.fixed = 1) = true) := by
    congr 1
    funext p
    simp
  rcases hcase with ⟨hfalse, -⟩ | ⟨-, -, ⟨met, hsolver⟩, -⟩
  · rw [hgood] at hfalse; cases hfalse
  · refine ⟨r, r.solver.tail, hr, ?_⟩
    rw [hsolver, hfree]
    simp only [List.tail_cons, List.cons.injEq, SolverCall.construct.injEq, true_and, and_true]
    unfold POP_SIZE_PER_PARAMETER
    rw [hnot]
    omega

/-- C3 at the example of the specification: five parameters, two of them fixed, give a
population of 30. -/
theorem DiffEvolnFit_population_size_witness :
    (10 * ((demoFive.take (5 : Int).toNat).countP (fun p => p.fixed ≠ 1) : Nat) : Int) = 30 ∧
    ∃ r rest, DiffEvolnFit demoSolver (fun _ w => ((0 : Int), w)) 5 [1, 2, 3, 4, 5]
        (some demoFive) 7 0 0 = .ok r ∧
      r.solver = SolverCall.construct 5
        (10 * ((demoFive.take (5 : Int).toNat).countP (fun p => p.fixed ≠ 1) : Nat)) :: rest :=
  ⟨by decide,
   DiffEvolnFit_population_size demoSolver (fun _ w => ((0 : Int), w)) 5 [1, 2, 3, 4, 5]
    demoFive 7 0 0 (by decide) (by decide) (by decide) (by decide) (by decide)⟩

/-- C8, counterexample: with complete limits and a solver whose `Solve` reports that the
tolerance was not met within the 600 generations, `DiffEvolnFit` still returns the positive
status `1`. -/
theorem DiffEvolnFit_positive_status_without_convergence :
    ∃ r, DiffEvolnFit demoSolver (fun _ w => ((0 : Int), w)) 2 [100, 200] (some demoFree)
        7 0 0 = .ok r ∧
      0 < r.status ∧ SolverCall.Solve 600 0 false ∈ r.solver :=
  ⟨_, rfl, by decide, by decide⟩

/-- C8, amended: the status of `DiffEvolnFit` depends on the limits validation alone. It is
`1` whenever the limits are complete and the solver was run for at most 600 generations,
whatever `Solve` reported about the tolerance, and `-1` with no solver call otherwise. -/
theorem DiffEvolnFit_status_ignores_convergence {σ α S : Type} [Zero α]
    (de : DESolverLib σ α S) (GetFitStatistic : List α → σ → α × σ) (nParamsTot : Int)
    (paramVector : List α) (parameterLimits : Option (List (mp_par α))) (theModel : σ) (ftol : α)
    (verbose : Int)
    (hlen : ∀ table, parameterLimits = some table →
      nParamsTot.toNat ≤ table.length ∧ nParamsTot.toNat ≤ paramVector.length)
    (hint : INT_MIN ≤ POP_SIZE_PER_PARAMETER * nParamsTot ∧
      POP_SIZE_PER_PARAMETER * nParamsTot ≤ INT_MAX) :
    ∃ r, DiffEvolnFit de GetFitStatistic nParamsTot paramVector parameterLimits theModel ftol
        verbose = .ok r ∧
      ((∃ table, parameterLimits = some table ∧ ∀ p ∈ table.take nParamsTot.toNat,
          p.fixed = 1 ∨ (p.limited.1 = 1 ∧ p.limited.2 = 1)) →
        r.status = 1 ∧ ∃ met, SolverCall.Solve MAX_DE_GENERATIONS verbose met ∈ r.solver) ∧
      ((∀ table, parameterLimits = some table → ∃ p ∈ table.take nParamsTot.toNat,
          p.fixed ≠ 1 ∧ (p.limited.1 ≠ 1 ∨ p.limited.2 ≠ 1)) →
        r.status = -1 ∧ r.solver = []) := by
  obtain ⟨r, scan, hr, hs, -, -, hcase⟩ := DiffEvolnFit_outcome de GetFitStatistic nParamsTot
    paramVector parameterLimits theModel ftol verbose hlen hint
  refine ⟨r, hr, ?_, ?_⟩
  · rintro ⟨table, hlim, hvalid⟩
    subst hlim
    obtain ⟨hT, hV⟩ := hlen table rfl
    have hgood := scanLimits_complete nParamsTot paramVector table scan hT hV hvalid hs
    rcases hcase with ⟨hfalse, -⟩ | ⟨-, hstatus, ⟨met, hsolver⟩, -⟩
    · rw [hgood] at hfalse; cases hfalse
    · exact ⟨hstatus, met, by rw [hsolver]; simp⟩
  · intro hbad
    obtain ⟨scan', hs', hfalse⟩ := scanLimits_incomplete nParamsTot paramVector parameterLimits
      (fun table hlim => ⟨(hlen table hlim).1, (hlen table hlim).2, hbad table hlim⟩)
    have hsame : scan' = scan := by
      rw [hs'] at hs; exact Except.ok.inj hs
    subst hsame
    rcases hcase with ⟨-, hstatus, hnone, -⟩ | ⟨htrue, -⟩
    · exact ⟨hstatus, hnone⟩
    · rw [hfalse] at htrue; cases htrue

/-- C8, amended, at concrete inputs: the non-converging solver with complete limits. -/
theorem DiffEvolnFit_status_ignores_convergence_witness :
    ∃ r, DiffEvolnFit demoSolver (fun _ w => ((0 : Int), w)) 2 [100, 200] (some demoFree)
        7 0 0 = .ok r ∧
      ((∃ table, some demoFree = some table ∧ ∀ p ∈ table.take (2 : Int).toNat,
          p.fixed = 1 ∨ (p.limited.1 = 1 ∧ p.limited.2 = 1)) →
        r.status = 1 ∧ ∃ met, SolverCall.Solve MAX_DE_GENERATIONS 0 met ∈ r.solver) ∧
      ((∀ table, some demoFree = some table → ∃ p ∈ table.take (2 : Int).toNat,
          p.fixed ≠ 1 ∧ (p.limited.1 ≠ 1 ∨ p.limited.2 ≠ 1)) →
        r.status = -1 ∧ r.solver = []) :=
  DiffEvolnFit_status_ignores_convergence demoSolver (fun _ w => ((0 : Int), w)) 2 [100, 200]
    (some demoFree) 7 0 0
    (by intro table h; cases h; exact ⟨by decide, by decide⟩) (by decide)

/-! ## `BootstrapErrors` -/

theorem resetLoop_spec {α : Type} (bestfitParams : List α) (n : Nat) (v : List α)
    (hv : v.length = n) (hb : n ≤ bestfitParams.length) :
    forLoop (resetStep bestfitParams) n v = .ok (bestfitParams.take n) := by
  obtain ⟨t, ht, hlen, hget⟩ := forLoop_invariant (resetStep bestfitParams)
    (fun m t => t.length = n ∧ ∀ i, t[i]? = if i < m then bestfitParams[i]? else v[i]?)
    n v ⟨hv, by simp⟩
    (by
      intro m hm t ⟨hlen, hget⟩
      have hmb : m < bestfitParams.length := lt_of_lt_of_le hm hb
      refine ⟨t.set m bestfitParams[m], by simp [resetStep, readAt_of_lt hmb], by simp [hlen],
        ?_⟩
      intro i
      rw [List.getElem?_set]
      by_cases hi : m = i
      · subst hi
        simp [hlen, hm, List.getElem?_eq_getElem hmb]
      · rw [if_neg hi, hget i]
        have : (i < m + 1) = (i < m) := by
          apply propext; omega
        simp only [this])
  rw [ht]
  congr 1
  apply List.ext_getElem?
  intro i
  rw [hget i, List.getElem?_take]
  by_cases hi : i < n
  · simp [hi]
  · simp [hi, List.getElem?_eq_none (by omega : v.length ≤ i)]

theorem storeLoop_spec {α : Type} (fitted : List α) (k n N : Nat) (A : List (List α))
    (hA : A.length = n) (hrows : ∀ row ∈ A, row.length = N) (hk : k < N)
    (hf : fitted.length = n) :
    ∃ A', forLoop (storeStep fitted k) n A = .ok A' ∧ A'.length = n ∧
      (∀ row ∈ A', row.length = N) ∧
      ∀ i j, i < n → (A'[i]?.bind (fun row => row[j]?))
        = if j = k then fitted[i]? else A[i]?.bind (fun row => row[j]?) := by
  obtain ⟨t, ht, hlen, hget⟩ := forLoop_invariant (storeStep fitted k)
    (fun m t => t.length = n ∧ ∀ i, t[i]? =
      if i < m then A[i]?.bind (fun row => fitted[i]?.map (fun x => row.set k x)) else A[i]?)
    n A ⟨hA, by simp⟩
    (by
      intro m hm t ⟨hlen, hget⟩
      have hmf : m < fitted.length := by omega
      have hmt : m < t.length := by omega
      have hmA : m < A.length := by omega
      have htm : t[m]? = A[m]? := by rw [hget m]; simp
      have htm' : t[m] = A[m] := by
        rw [List.getElem?_eq_getElem hmt, List.getElem?_eq_getElem hmA] at htm
        exact Option.some.inj htm
      have hrow : A[m].length = N := hrows _ (List.getElem_mem hmA)
      refine ⟨t.set m (A[m].set k fitted[m]), ?_, by simp [hlen], ?_⟩
      · simp [storeStep, readAt_of_lt hmf, readAt_of_lt hmt, htm', hrow, hk]
      · intro i
        rw [List.getElem?_set]
        by_cases hi : m = i
        · subst hi
          simp [hmt, List.getElem?_eq_getElem hmA, List.getElem?_eq_getElem hmf]
        · rw [if_neg hi, hget i]
          have : (i < m + 1) = (i < m) := by
            apply propext; omega
          simp only [this])
  have hshape : ∀ i, i < n → ∃ row x, A[i]? = some row ∧ fitted[i]? = some x ∧ row.length = N ∧
      t[i]? = some (row.set k x) := by
    intro i hi
    have hiA : i < A.length := by omega
    have hif : i < fitted.length := by omega
    refine ⟨A[i], fitted[i], List.getElem?_eq_getElem hiA, List.getElem?_eq_getElem hif,
      hrows _ (List.getElem_mem hiA), ?_⟩
    rw [hget i]
    simp [hi, List.getElem?_eq_getElem hiA, List.getElem?_eq_getElem hif]
  refine ⟨t, ht, hlen, ?_, ?_⟩
  · intro row hrow
    obtain ⟨i, hi⟩ := List.mem_iff_getElem?.mp hrow
    have hilt : i < n := by
      by_contra hcon
      rw [List.getElem?_eq_none (by omega)] at hi
      cases hi
    obtain ⟨row0, x, -, -, hlen0, hti⟩ := hshape i hilt
    rw [hti] at hi
    cases hi
    simp [hlen0]
  · intro i j hi
    obtain ⟨row0, x, hAi, hfi, hlen0, hti⟩ := hshape i hi
    rw [hti, hAi, hfi]
    simp only [Option.some_bind, List.getElem?_set]
    by_cases hj : j = k
    · subst hj
      simp [hlen0, hk]
    · have : ¬ k = j := fun h => hj h.symm
      simp [hj, this]

theorem refit_total {σ α S : Type} [Zero α] (ext : Externals σ α S)
    (nParams nFreeParams nValidPixels : Int) (start : List α)
    (parameterLimits : Option (List (mp_par α))) (theModel : σ) (ftol : α)
    (paramLimitsExist : Bool) (whichStatistic verboseLevel : Int)
    (hlen : ∀ table, parameterLimits = some table →
      nParams.toNat ≤ table.length ∧ nParams.toNat ≤ start.length)
    (hint : INT_MIN ≤ POP_SIZE_PER_PARAMETER * nParams ∧
      POP_SIZE_PER_PARAMETER * nParams ≤ INT_MAX) :
    ∃ r solver, refit ext nParams nFreeParams nValidPixels start parameterLimits theModel ftol
        paramLimitsExist whichStatistic verboseLevel = .ok r ∧
      r.paramsVect.length = start.length ∧
      r.call = Call.fit
        (if whichStatistic = ext.FITSTAT_CHISQUARE ∨ whichStatistic = ext.FITSTAT_MODCASH then
          Backend.LevMar
         else if ext.NO_NLOPT = false then Backend.NMSimplex else Backend.DiffEvoln)
        start verboseLevel r.status r.paramsVect solver := by
  unfold refit
  by_cases hstat : whichStatistic = ext.FITSTAT_CHISQUARE ∨ whichStatistic = ext.FITSTAT_MODCASH
  · simp only [if_pos hstat]
    exact ⟨_, _, rfl, FitReturn.length_eq _, rfl⟩
  · simp only [if_neg hstat]
    by_cases hnl : ext.NO_NLOPT = false
    · simp only [if_pos hnl]
      exact ⟨_, _, rfl, FitReturn.length_eq _, rfl⟩
    · simp only [if_neg hnl]
      obtain ⟨d, -, hd, -, -, hdlen, -⟩ := DiffEvolnFit_outcome ext.de ext.GetFitStatistic nParams
        start parameterLimits theModel ftol verboseLevel hlen hint
      rw [hd]
      exact ⟨_, _, rfl, hdlen, rfl⟩

theorem iterations_spec {σ α S : Type} [Zero α] (ext : Externals σ α S) (bestfitParams : List α)
    (parameterLimits : Option (List (mp_par α))) (paramLimitsExist : Bool) (ftol : α)
    (nFreeParams whichStatistic nParams nValidPixels verboseLevel : Int) (N : Nat)
    (s0 : BootState σ α)
    (hb : nParams.toNat ≤ bestfitParams.length)
    (hlen : ∀ table, parameterLimits = some table → nParams.toNat ≤ table.length)
    (hint : INT_MIN ≤ POP_SIZE_PER_PARAMETER * nParams ∧
      POP_SIZE_PER_PARAMETER * nParams ≤ INT_MAX)
    (hv : s0.paramsVect.length = nParams.toNat) (hA : s0.paramArray.length = nParams.toNat)
    (hrows : ∀ row ∈ s0.paramArray, row.length = N) :
    ∃ (s : BootState σ α) (recs : List (Refit σ α)), forLoop (bootstrapIteration ext bestfitParams parameterLimits paramLimitsExist
        ftol nFreeParams whichStatistic nParams nValidPixels verboseLevel) N s0 = .ok s ∧
      s.paramArray.length = nParams.toNat ∧ (∀ row ∈ s.paramArray, row.length = N) ∧
      s.paramSigmas = s0.paramSigmas ∧
      recs.length = N ∧ s.calls = s0.calls ++ recs.flatMap iterationCalls ∧
      (∀ r ∈ recs, ∃ w, refit ext nParams nFreeParams nValidPixels
        (bestfitParams.take nParams.toNat) parameterLimits w ftol paramLimitsExist whichStatistic
        verboseLevel = .ok r) ∧
      (∀ i j, i < nParams.toNat → j < N → (s.paramArray[i]?.bind (fun row => row[j]?))
        = recs[j]?.bind (fun r => r.paramsVect[i]?)) ∧
      s.stdout = s0.stdout ++ (List.range N).map (fun j : Nat => Output.iteration ((j : Int) + 1)) ∧
      (s0.world :: recs.map (fun r => r.world))[N]? = some s.world ∧
      (∀ (j : Nat) (r : Refit σ α), recs[j]? = some r →
        ∃ w, (s0.world :: recs.map (fun r => r.world))[j]? = some w ∧
          refit ext nParams nFreeParams nValidPixels (bestfitParams.take nParams.toNat)
            parameterLimits (ext.MakeBootstrapSample w) ftol paramLimitsExist whichStatistic
            verboseLevel = .ok r) := by
  have htake : (bestfitParams.take nParams.toNat).length = nParams.toNat := by
    simp [List.length_take, hb]
  obtain ⟨s, hs, -, hA', hrows', hsig, recs, hrl, hcalls, hrefit, hcols, hout, hworld, hchain⟩ :=
    forLoop_invariant (bootstrapIteration ext bestfitParams parameterLimits paramLimitsExist
        ftol nFreeParams whichStatistic nParams nValidPixels verboseLevel)
    (fun k s => s.paramsVect.length = nParams.toNat ∧ s.paramArray.length = nParams.toNat ∧
      (∀ row ∈ s.paramArray, row.length = N) ∧ s.paramSigmas = s0.paramSigmas ∧
      ∃ recs : List (Refit σ α), recs.length = k ∧
        s.calls = s0.calls ++ recs.flatMap iterationCalls ∧
        (∀ r ∈ recs, ∃ w, refit ext nParams nFreeParams nValidPixels
          (bestfitParams.take nParams.toNat) parameterLimits w ftol paramLimitsExist
          whichStatistic verboseLevel = .ok r) ∧
        (∀ i j, i < nParams.toNat → j < k → (s.paramArray[i]?.bind (fun row => row[j]?))
          = recs[j]?.bind (fun r => r.paramsVect[i]?)) ∧
        s.stdout = s0.stdout ++ (List.range k).map (fun j : Nat => Output.iteration ((j : Int) + 1)) ∧
        (s0.world :: recs.map (fun r => r.world))[k]? = some s.world ∧
        (∀ (j : Nat) (r : Refit σ α), recs[j]? = some r →
          ∃ w, (s0.world :: recs.map (fun r => r.world))[j]? = some w ∧
            refit ext nParams nFreeParams nValidPixels (bestfitParams.take nParams.toNat)
              parameterLimits (ext.MakeBootstrapSample w) ftol paramLimitsExist whichStatistic
              verboseLevel = .ok r))
    N s0 ⟨hv, hA, hrows, rfl, [], rfl, by simp, by simp, by simp, by simp, by simp, by simp⟩
    (by
      intro k hk s ⟨hv, hA, hrows, hsig, recs, hrl, hcalls, hrefit, hcols, hout, hworld, hchain⟩
      have hreset := resetLoop_spec bestfitParams nParams.toNat s.paramsVect hv hb
      obtain ⟨r, solver, hr, hrlen, -⟩ := refit_total ext nParams nFreeParams nValidPixels
        (bestfitParams.take nParams.toNat) parameterLimits (ext.MakeBootstrapSample s.world) ftol
        paramLimitsExist whichStatistic verboseLevel
        (fun table ht => ⟨hlen table ht, by rw [htake]⟩) hint
      rw [htake] at hrlen
      obtain ⟨A', hstore, hA', hrows', hcol⟩ := storeLoop_spec r.paramsVect k nParams.toNat N
        s.paramArray hA hrows hk hrlen
      have hstep : bootstrapIteration ext bestfitParams parameterLimits paramLimitsExist ftol
          nFreeParams whichStatistic nParams nValidPixels verboseLevel k s
          = .ok { s with
                  world := r.world
                  paramsVect := r.paramsVect
                  paramArray := A'
                  calls := s.calls ++ [Call.MakeBootstrapSample, r.call]
                  stdout := s.stdout ++ [Output.iteration ((k : Int) + 1)] } := by
        simp only [bootstrapIteration, hreset, hr, hstore]
      have hinit : s0.world :: (recs ++ [r]).map (fun r => r.world)
          = (s0.world :: recs.map (fun r => r.world)) ++ [r.world] := by
        simp
      refine ⟨_, hstep, hrlen, hA', hrows', hsig, recs ++ [r], by simp [hrl], ?_, ?_, ?_, ?_, ?_,
        ?_⟩
      · show s.calls ++ [Call.MakeBootstrapSample, r.call] = _
        rw [hcalls, List.flatMap_append, List.append_assoc]
        rfl
      · intro r' hr'
        rcases List.mem_append.mp hr' with h | h
        · exact hrefit r' h
        · rw [List.mem_singleton] at h
          subst h
          exact ⟨_, hr⟩
      · intro i j hi hj
        show (A'[i]?.bind (fun row => row[j]?)) = _
        rw [hcol i j hi]
        by_cases hjk : j = k
        · subst hjk
          rw [if_pos rfl, ← hrl, List.getElem?_concat_length]
          rfl
        · rw [if_neg hjk, hcols i j hi (by omega),
            List.getElem?_append_left (by omega : j < recs.length)]
      · show s.stdout ++ [Output.iteration ((k : Int) + 1)] = _
        rw [hout, List.range_succ, List.map_append, List.append_assoc]
        rfl
      · show (s0.world :: (recs ++ [r]).map (fun r => r.world))[k + 1]? = some r.world
        rw [hinit, List.getElem?_append_right (by simp [hrl])]
        simp [hrl]
      · intro j r' hj
        by_cases hjk : j < k
        · rw [List.getElem?_append_left (by omega)] at hj
          obtain ⟨w, hw, hwr⟩ := hchain j r' hj
          refine ⟨w, ?_, hwr⟩
          rw [hinit, List.getElem?_append_left (by simp [hrl]; omega)]
          exact hw
        · have hjeq : j = k := by
            by_contra hne
            rw [List.getElem?_eq_none (by simp [hrl]; omega)] at hj
            cases hj
          subst hjeq
          rw [← hrl, List.getElem?_concat_length] at hj
          cases hj
          refine ⟨s.world, ?_, hr⟩
          rw [hinit, List.getElem?_append_left (by simp [hrl])]
          exact hworld)
  exact ⟨s, recs, hs, hA', hrows', hsig, hrl, hcalls, hrefit, hcols, hout, hworld, hchain⟩

theorem sigmaLoop_spec {σ α S : Type} (ext : Externals σ α S) (nIterations : Int) (n : Nat)
    (s0 : BootState σ α) (hA : s0.paramArray.length = n) :
    ∃ (s : BootState σ α) (stats : List (Call α)),
      forLoop (sigmaStep ext nIterations) n s0 = .ok s ∧
      s.world = s0.world ∧ s.paramArray = s0.paramArray ∧ s.stdout = s0.stdout ∧
      s.paramSigmas.length = s0.paramSigmas.length ∧
      s.calls = s0.calls ++ stats ∧ ∀ c ∈ stats, c.isStatistic = true := by
  obtain ⟨s, hs, hw, hpa, hout, hsig, stats, hcalls, hstat⟩ :=
    forLoop_invariant (sigmaStep ext nIterations)
    (fun _ s => s.world = s0.world ∧ s.paramArray = s0.paramArray ∧ s.stdout = s0.stdout ∧
      s.paramSigmas.length = s0.paramSigmas.length ∧
      ∃ stats : List (Call α), s.calls = s0.calls ++ stats ∧ ∀ c ∈ stats, c.isStatistic = true)
    n s0 ⟨rfl, rfl, rfl, rfl, [], by simp, by simp⟩
    (by
      intro m hm s ⟨hw, hpa, hout, hsig, stats, hcalls, hstat⟩
      have hms : m < s.paramArray.length := by rw [hpa]; omega
      have hstep : sigmaStep ext nIterations m s
          = .ok { s with
                  paramSigmas := s.paramSigmas.set m
                    (ext.StandardDeviation s.paramArray[m] nIterations)
                  calls := s.calls ++ [Call.StandardDeviation s.paramArray[m] nIterations] } := by
        simp only [sigmaStep, readAt_of_lt hms]
      refine ⟨_, hstep, hw, hpa, hout, by simp [hsig],
        stats ++ [Call.StandardDeviation s.paramArray[m] nIterations], ?_, ?_⟩
      · show s.calls ++ _ = _
        rw [hcalls, List.append_assoc]
      · intro c hc
        rcases List.mem_append.mp hc with h | h
        · exact hstat c h
        · rw [List.mem_singleton] at h
          subst h
          rfl)
  exact ⟨s, stats, hs, hw, hpa, hout, hsig, hcalls, hstat⟩

theorem readIndex_of_lt {β : Type} (xs : List β) (i : Int) (h0 : 0 ≤ i)
    (h : i < (xs.length : Int)) : ∃ x, readIndex xs i = .ok x := by
  have hlt : i.toNat < xs.length := by omega
  exact ⟨xs[i.toNat], by simp [readIndex, not_lt.mpr h0, readAt_of_lt hlt]⟩

theorem ConfidenceInterval_ok {α : Type} [LE α] [DecidableRel (fun a b : α => a ≤ b)]
    (intervalIndices : Int → Int × Int) (vals : List α) (nVals : Int)
    (hidx : 0 ≤ (intervalIndices nVals).1 ∧ (intervalIndices nVals).1 < (vals.length : Int) ∧
      0 ≤ (intervalIndices nVals).2 ∧ (intervalIndices nVals).2 < (vals.length : Int)) :
    ∃ lower upper, ConfidenceInterval intervalIndices vals nVals
      = .ok (vals.insertionSort (fun a b => a ≤ b), lower, upper) := by
  obtain ⟨h1, h2, h3, h4⟩ := hidx
  obtain ⟨lower, hlower⟩ := readIndex_of_lt (vals.insertionSort (fun a b => a ≤ b)) _ h1
    (by rw [List.length_insertionSort]; exact h2)
  obtain ⟨upper, hupper⟩ := readIndex_of_lt (vals.insertionSort (fun a b => a ≤ b)) _ h3
    (by rw [List.length_insertionSort]; exact h4)
  exact ⟨lower, upper, by simp only [ConfidenceInterval, hlower, hupper]⟩

theorem ConfidenceInterval_fst {α : Type} [LE α] [DecidableRel (fun a b : α => a ≤ b)]
    (intervalIndices : Int → Int × Int) (vals : List α) (nVals : Int) (ci : List α × α × α)
    (h : ConfidenceInterval intervalIndices vals nVals = .ok ci) :
    ci.1 = vals.insertionSort (fun a b => a ≤ b) := by
  unfold ConfidenceInterval at h
  simp only at h
  cases h1 : readIndex (vals.insertionSort (fun a b => a ≤ b)) (intervalIndices nVals).1 with
  | error e => rw [h1] at h; cases h
  | ok lower =>
    rw [h1] at h
    simp only at h
    cases h2 : readIndex (vals.insertionSort (fun a b => a ≤ b)) (intervalIndices nVals).2 with
    | error e => rw [h2] at h; cases h
    | ok upper =>
      rw [h2] at h
      cases h
      rfl

theorem intervals_in_rows {σ α S : Type} (ext : Externals σ α S)
    (parameterLimits : Option (List (mp_par α))) (paramLimitsExist : Bool) (theModel : σ)
    (nIterations : Int)
    (h : IntervalsDefined ext parameterLimits paramLimitsExist theModel nIterations) :
    ∀ (table : List (mp_par α)) (p : mp_par α), paramLimitsExist = true →
      parameterLimits = some table → p ∈ table.take (ext.GetNParams theModel).toNat →
      p.fixed = 0 →
      0 ≤ (ext.intervalIndices nIterations).1 ∧
      (ext.intervalIndices nIterations).1 < (nIterations.toNat : Int) ∧
      0 ≤ (ext.intervalIndices nIterations).2 ∧
      (ext.intervalIndices nIterations).2 < (nIterations.toNat : Int) := by
  intro table p hple hlim hp hfix
  obtain ⟨h1, h2, h3, h4⟩ := h table p hple hlim hp hfix
  refine ⟨h1, ?_, h3, ?_⟩ <;> omega

theorem reportInterval_ok {σ α S : Type} [Sub α] [Div α] [OfNat α 2] [LE α]
    [DecidableRel (fun a b : α => a ≤ b)] (ext : Externals σ α S) (bestfitParams : List α)
    (nIterations : Int) (m : Nat) (s : BootState σ α) (hb : m < bestfitParams.length)
    (hA : m < s.paramArray.length) (hsig : m < s.paramSigmas.length)
    (hidx : 0 ≤ (ext.intervalIndices nIterations).1 ∧
      (ext.intervalIndices nIterations).1 < (s.paramArray[m].length : Int) ∧
      0 ≤ (ext.intervalIndices nIterations).2 ∧
      (ext.intervalIndices nIterations).2 < (s.paramArray[m].length : Int)) :
    ∃ t : BootState σ α, reportInterval ext bestfitParams nIterations m s = .ok t ∧
      t.world = s.world ∧ t.paramSigmas = s.paramSigmas ∧
      t.paramArray = s.paramArray.set m (s.paramArray[m].insertionSort (fun a b => a ≤ b)) ∧
      t.calls = s.calls ++ [Call.ConfidenceInterval s.paramArray[m] nIterations,
        Call.Mean (s.paramArray[m].insertionSort (fun a b => a ≤ b)) nIterations] := by
  obtain ⟨lower, upper, hci⟩ := ConfidenceInterval_ok ext.intervalIndices s.paramArray[m]
    nIterations hidx
  simp only [reportInterval, readAt_of_lt hA, hci, readAt_of_lt hb, readAt_of_lt hsig]
  exact ⟨_, rfl, rfl, rfl, rfl, rfl⟩

theorem reportLoop_spec {σ α S : Type} [Sub α] [Div α] [OfNat α 2] [LE α]
    [DecidableRel (fun a b : α => a ≤ b)] (ext : Externals σ α S) (bestfitParams : List α)
    (parameterLimits : Option (List (mp_par α))) (paramLimitsExist : Bool) (nIterations : Int)
    (n N : Nat) (s0 : BootState σ α)
    (hb : n ≤ bestfitParams.length)
    (hlen : ∀ table, parameterLimits = some table → n ≤ table.length)
    (hexist : paramLimitsExist = true → parameterLimits ≠ none)
    (hA : s0.paramArray.length = n) (hrows : ∀ row ∈ s0.paramArray, row.length = N)
    (hsig : s0.paramSigmas.length = n)
    (hidx : ∀ (table : List (mp_par α)) (p : mp_par α), paramLimitsExist = true →
      parameterLimits = some table → p ∈ table.take n → p.fixed = 0 →
      0 ≤ (ext.intervalIndices nIterations).1 ∧
      (ext.intervalIndices nIterations).1 < (N : Int) ∧
      0 ≤ (ext.intervalIndices nIterations).2 ∧
      (ext.intervalIndices nIterations).2 < (N : Int)) :
    ∃ (s : BootState σ α) (stats : List (Call α)),
      forLoop (reportStep ext bestfitParams parameterLimits paramLimitsExist nIterations) n s0
        = .ok s ∧
      s.world = s0.world ∧ s.paramSigmas = s0.paramSigmas ∧ s.paramArray.length = n ∧
      (∀ row ∈ s.paramArray, row.length = N) ∧
      (∀ i : Nat, s.paramArray[i]? = s0.paramArray[i]? ∨
        (paramLimitsExist = true ∧
          (∃ (table : List (mp_par α)) (p : mp_par α),
            parameterLimits = some table ∧ table[i]? = some p ∧ p.fixed = 0) ∧
          ∃ row : List α, s0.paramArray[i]? = some row ∧
            s.paramArray[i]? = some (row.insertionSort (fun a b => a ≤ b)))) ∧
      s.calls = s0.calls ++ stats ∧ ∀ c ∈ stats, c.isStatistic = true := by
  obtain ⟨s, hs, hw, hsg, hA', hlater, hrow, stats, hcalls, hstat⟩ :=
    forLoop_invariant (reportStep ext bestfitParams parameterLimits paramLimitsExist nIterations)
    (fun m s => s.world = s0.world ∧ s.paramSigmas = s0.paramSigmas ∧
      s.paramArray.length = n ∧
      (∀ i, m ≤ i → s.paramArray[i]? = s0.paramArray[i]?) ∧
      (∀ i : Nat, s.paramArray[i]? = s0.paramArray[i]? ∨
        (paramLimitsExist = true ∧
          (∃ (table : List (mp_par α)) (p : mp_par α),
            parameterLimits = some table ∧ table[i]? = some p ∧ p.fixed = 0) ∧
          ∃ row : List α, s0.paramArray[i]? = some row ∧
            s.paramArray[i]? = some (row.insertionSort (fun a b => a ≤ b)))) ∧
      ∃ stats : List (Call α), s.calls = s0.calls ++ stats ∧ ∀ c ∈ stats, c.isStatistic = true)
    n s0 ⟨rfl, rfl, hA, fun _ _ => rfl, fun _ => Or.inl rfl, [], by simp, by simp⟩
    (by
      intro m hm s ⟨hw, hsg, hA', hlater, hrow, stats, hcalls, hstat⟩
      have hmb : m < bestfitParams.length := by omega
      have hfixedStep : reportFixed ext bestfitParams m s
          = .ok { s with stdout := s.stdout ++
                    [Output.fixedParameter (ext.GetParameterName s.world m) bestfitParams[m]] } := by
        simp only [reportFixed, readAt_of_lt hmb]
      have hfixedInv : ∃ t, reportFixed ext bestfitParams m s = .ok t ∧
          (t.world = s0.world ∧ t.paramSigmas = s0.paramSigmas ∧ t.paramArray.length = n ∧
          (∀ i, m + 1 ≤ i → t.paramArray[i]? = s0.paramArray[i]?) ∧
          (∀ i : Nat, t.paramArray[i]? = s0.paramArray[i]? ∨
            (paramLimitsExist = true ∧
              (∃ (table : List (mp_par α)) (p : mp_par α),
            parameterLimits = some table ∧ table[i]? = some p ∧ p.fixed = 0) ∧
              ∃ row : List α, s0.paramArray[i]? = some row ∧
                t.paramArray[i]? = some (row.insertionSort (fun a b => a ≤ b)))) ∧
          ∃ stats : List (Call α), t.calls = s0.calls ++ stats ∧
            ∀ c ∈ stats, c.isStatistic = true) :=
        ⟨_, hfixedStep, hw, hsg, hA', fun i hi => hlater i (by omega), hrow, stats, hcalls,
          hstat⟩
      unfold reportStep
      by_cases hple : paramLimitsExist = true
      · rw [if_pos hple]
        cases hlim : parameterLimits with
        | none => exact absurd hlim (hexist hple)
        | some table =>
          have hmt : m < table.length := lt_of_lt_of_le hm (hlen table hlim)
          simp only [readAt_of_lt hmt]
          by_cases hfix : table[m].fixed = 0
          · rw [if_pos hfix]
            have hms : m < s.paramArray.length := by omega
            have hmsig : m < s.paramSigmas.length := by rw [hsg]; omega
            have hm0 : m < s0.paramArray.length := by omega
            have hsame : s.paramArray[m] = s0.paramArray[m] := by
              have := hlater m (le_refl m)
              rw [List.getElem?_eq_getElem hms, List.getElem?_eq_getElem hm0] at this
              exact Option.some.inj this
            have hrowN : s.paramArray[m].length = N := by
              rw [hsame]; exact hrows _ (List.getElem_mem hm0)
            have hmemT : table[m] ∈ table.take n :=
              List.mem_iff_getElem?.mpr
                ⟨m, by rw [List.getElem?_take_of_lt hm]; exact List.getElem?_eq_getElem hmt⟩
            obtain ⟨t, ht, htw, htsig, htA, htcalls⟩ := reportInterval_ok ext bestfitParams
              nIterations m s hmb hms hmsig
              (by rw [hrowN]; exact hidx table table[m] hple hlim hmemT hfix)
            refine ⟨t, ht, by rw [htw, hw], by rw [htsig, hsg], by simp [htA, hA'], ?_, ?_, ?_⟩
            · intro i hi
              rw [htA, List.getElem?_set_ne (by omega)]
              exact hlater i (by omega)
            · intro i
              rw [htA]
              by_cases him : m = i
              · subst him
                right
                refine ⟨hple, ⟨table, table[m], hlim.symm ▸ rfl, List.getElem?_eq_getElem hmt,
                  hfix⟩, s0.paramArray[m], List.getElem?_eq_getElem hm0, ?_⟩
                rw [List.getElem?_set_self hms, hsame]
              · rw [List.getElem?_set_ne him]
                rcases hrow i with h | ⟨h1, ⟨t', p', ht', hp', hf'⟩, h3⟩
                · exact Or.inl h
                · exact Or.inr ⟨h1, ⟨t', p', by rw [← hlim]; exact ht', hp', hf'⟩, h3⟩
            · refine ⟨stats ++ [Call.ConfidenceInterval s.paramArray[m] nIterations,
                Call.Mean (s.paramArray[m].insertionSort (fun a b => a ≤ b)) nIterations], ?_, ?_⟩
              · rw [htcalls, hcalls, List.append_assoc]
              · intro c hc
                rcases List.mem_append.mp hc with h | h
                · exact hstat c h
                · simp only [List.mem_cons, List.mem_singleton, List.not_mem_nil, or_false] at h
                  rcases h with h | h <;> subst h <;> rfl
          · rw [if_neg hfix]
            obtain ⟨t, ht, h1, h2, h3, h4, h5, h6⟩ := hfixedInv
            refine ⟨t, ht, h1, h2, h3, h4, ?_, h6⟩
            intro i
            rcases h5 i with h | ⟨ha, ⟨t', p', ht', hp', hf'⟩, hc⟩
            · exact Or.inl h
            · exact Or.inr ⟨ha, ⟨t', p', by rw [← hlim]; exact ht', hp', hf'⟩, hc⟩
      · rw [if_neg hple]
        exact hfixedInv)
  refine ⟨s, stats, hs, hw, hsg, hA', ?_, hrow, hcalls, hstat⟩
  intro row hmem
  obtain ⟨i, hi⟩ := List.mem_iff_getElem?.mp hmem
  rcases hrow i with h | ⟨-, -, row0, h0, hsorted⟩
  · rw [h] at hi
    exact hrows row (List.mem_iff_getElem?.mpr ⟨i, hi⟩)
  · rw [hsorted] at hi
    cases hi
    rw [List.length_insertionSort]
    exact hrows row0 (List.mem_iff_getElem?.mpr ⟨i, h0⟩)

theorem lineLoop_spec {α : Type} (A : List (List α)) (k n N : Nat) (hA : A.length = n)
    (hrows : ∀ row ∈ A, row.length = N) (hk : k < N) :
    ∃ cells : List α, forLoop (lineStep A k) n [] = .ok cells ∧ cells.length = n ∧
      ∀ i : Nat, i < n → cells[i]? = A[i]?.bind (fun row => row[k]?) := by
  have hgen : ∀ m, m ≤ n → ∃ cells : List α, forLoop (lineStep A k) m [] = .ok cells ∧
      cells.length = m ∧ ∀ i : Nat, i < m → cells[i]? = A[i]?.bind (fun row => row[k]?) := by
    intro m
    induction m with
    | zero => exact fun _ => ⟨[], rfl, rfl, fun i hi => absurd hi (Nat.not_lt_zero i)⟩
    | succ m ih =>
      intro hm
      obtain ⟨cells, hcells, hlen, hget⟩ := ih (by omega)
      have hmA : m < A.length := by omega
      have hmk : k < A[m].length := by rw [hrows _ (List.getElem_mem hmA)]; exact hk
      refine ⟨cells ++ [A[m][k]], ?_, by simp [hlen], ?_⟩
      · simp only [forLoop, hcells, lineStep, readAt_of_lt hmA, readAt_of_lt hmk]
      · intro i hi
        by_cases him : i = m
        · subst him
          have h1 : (cells ++ [A[i][k]])[i]? = some A[i][k] := by
            rw [List.getElem?_append_right (by omega)]
            simp [hlen]
          rw [h1, List.getElem?_eq_getElem hmA]
          simp [List.getElem?_eq_getElem hmk]
        · rw [List.getElem?_append_left (by omega)]
          exact hget i (by omega)
  exact hgen n (le_refl n)

theorem saveSamples_spec {σ α S : Type} (ext : Externals σ α S) (world : σ)
    (A : List (List α)) (n N : Nat) (outputFileName : String) (hA : A.length = n)
    (hrows : ∀ row ∈ A, row.length = N)
    (hopen : 0 < outputFileName.length → ext.fopen outputFileName = true) :
    ∃ file : Option (FileWrite α), saveSamples ext world A n N outputFileName = .ok file ∧
      (¬ 0 < outputFileName.length → file = none) ∧
      (0 < outputFileName.length → ∃ rows : List (List α),
        file = some { name := outputFileName, header := ext.GetParamHeader world, rows := rows } ∧
        rows.length = N ∧
        ∀ k i : Nat, k < N → i < n →
          (rows[k]?.bind (fun cells => cells[i]?)) = A[i]?.bind (fun row => row[k]?)) := by
  unfold saveSamples
  by_cases hname : 0 < outputFileName.length
  · rw [if_pos hname, if_pos (hopen hname)]
    have hgen : ∀ m, m ≤ N → ∃ rows : List (List α),
        forLoop (fileStep A n) m [] = .ok rows ∧ rows.length = m ∧
        ∀ k i : Nat, k < m → i < n →
          (rows[k]?.bind (fun cells => cells[i]?)) = A[i]?.bind (fun row => row[k]?) := by
      intro m
      induction m with
      | zero => exact fun _ => ⟨[], rfl, rfl, fun k i hk => absurd hk (Nat.not_lt_zero k)⟩
      | succ m ih =>
        intro hm
        obtain ⟨rows, hrowsOk, hlen, hget⟩ := ih (by omega)
        obtain ⟨cells, hcells, -, hcellsGet⟩ := lineLoop_spec A m n N hA hrows (by omega)
        refine ⟨rows ++ [cells], ?_, by simp [hlen], ?_⟩
        · simp only [forLoop, hrowsOk, fileStep, hcells]
        · intro k i hk hi
          by_cases hkm : k = m
          · subst hkm
            have h1 : (rows ++ [cells])[k]? = some cells := by
              rw [List.getElem?_append_right (by omega)]
              simp [hlen]
            rw [h1]
            exact hcellsGet i hi
          · rw [List.getElem?_append_left (by omega)]
            exact hget k i (by omega) hi
    obtain ⟨rows, hrowsOk, hlen, hget⟩ := hgen N (le_refl N)
    rw [hrowsOk]
    exact ⟨_, rfl, fun h => absurd hname h, fun _ => ⟨rows, rfl, hlen, hget⟩⟩
  · rw [if_neg hname]
    exact ⟨none, rfl, fun _ => rfl, fun h => absurd h hname⟩

/-- The whole run of `BootstrapErrors` on a call that stays clear of undefined behaviour:
it returns, its call log is the seeding, `UseBootstrap`, then per iteration one resampling and
one minimiser call started from the best-fit vector, then statistics calls only; column `j` of
`samples` is the vector left by the minimiser in iteration `j`; every row of the final matrix
is the row of `samples` or, for a parameter with `fixed == 0` in an existing table, that row
sorted; the file, if any, holds the final matrix transposed; the minimiser call of iteration
`k` is made in the world left by resampling the world of the previous iteration's return (for
`k = 0`, of `UseBootstrap`). -/
theorem BootstrapErrors_run {σ α S : Type} [Zero α] [Sub α] [Div α] [OfNat α 2] [LE α]
    [DecidableRel (fun a b : α => a ≤ b)] (ext : Externals σ α S) (indeterminate : α)
    (bestfitParams : List α) (parameterLimits : Option (List (mp_par α)))
    (paramLimitsExist : Bool) (theModel : σ) (ftol : α) (nIterations nFreeParams : Int)
    (whichStatistic : Int) (outputFileName : String)
    (hdef : Defined ext bestfitParams parameterLimits paramLimitsExist theModel outputFileName)
    (hidef : IntervalsDefined ext parameterLimits paramLimitsExist theModel nIterations) :
    ∃ (run : BootstrapRun σ α) (recs : List (Refit σ α)) (stats : List (Call α)),
      BootstrapErrors ext indeterminate bestfitParams parameterLimits paramLimitsExist theModel
        ftol nIterations nFreeParams whichStatistic outputFileName = .ok run ∧
      recs.length = nIterations.toNat ∧
      run.calls = [Call.init_genrand (toUnsignedLong ext.time), Call.UseBootstrap]
        ++ recs.flatMap iterationCalls ++ stats ∧
      (∀ c ∈ stats, c.isStatistic = true) ∧
      (∀ r ∈ recs, ∃ w, refit ext (ext.GetNParams theModel) nFreeParams
        (ext.GetNValidPixels theModel) (bestfitParams.take (ext.GetNParams theModel).toNat)
        parameterLimits w ftol paramLimitsExist whichStatistic (-1) = .ok r) ∧
      run.samples.length = (ext.GetNParams theModel).toNat ∧
      (∀ row ∈ run.samples, row.length = nIterations.toNat) ∧
      (∀ i j : Nat, i < (ext.GetNParams theModel).toNat → j < nIterations.toNat →
        (run.samples[i]?.bind (fun row => row[j]?)) = recs[j]?.bind (fun r => r.paramsVect[i]?)) ∧
      (∀ i : Nat, run.paramArray[i]? = run.samples[i]? ∨
        (paramLimitsExist = true ∧
          (∃ (table : List (mp_par α)) (p : mp_par α),
            parameterLimits = some table ∧ table[i]? = some p ∧ p.fixed = 0) ∧
          ∃ row : List α, run.samples[i]? = some row ∧
            run.paramArray[i]? = some (row.insertionSort (fun a b => a ≤ b)))) ∧
      run.bestfitParams = bestfitParams ∧ run.parameterLimits = parameterLimits ∧
      (¬ 0 < outputFileName.length → run.file = none) ∧
      (0 < outputFileName.length → ∃ (rows : List (List α)) (header : String),
        run.file = some { name := outputFileName, header := header, rows := rows } ∧
        rows.length = nIterations.toNat ∧
        ∀ k i : Nat, k < nIterations.toNat → i < (ext.GetNParams theModel).toNat →
          (rows[k]?.bind (fun cells => cells[i]?))
            = run.paramArray[i]?.bind (fun row => row[k]?)) ∧
      (∀ (k : Nat) (r : Refit σ α), recs[k]? = some r →
        ∃ w, (ext.UseBootstrap (ext.init_genrand (toUnsignedLong ext.time) theModel)
            :: recs.map (fun r => r.world))[k]? = some w ∧
          refit ext (ext.GetNParams theModel) nFreeParams (ext.GetNValidPixels theModel)
            (bestfitParams.take (ext.GetNParams theModel).toNat) parameterLimits
            (ext.MakeBootstrapSample w) ftol paramLimitsExist whichStatistic (-1) = .ok r) := by
  obtain ⟨hb, hlen, hexist, hint, hopen⟩ := hdef
  obtain ⟨s1, recs, h1, hA1, hrows1, hsig1, hrl, hcalls1, hrefit, hcols, -, -, hchain⟩ :=
    iterations_spec ext bestfitParams parameterLimits paramLimitsExist ftol nFreeParams
      whichStatistic (ext.GetNParams theModel) (ext.GetNValidPixels theModel) (-1)
      nIterations.toNat
      { world := ext.UseBootstrap (ext.init_genrand (toUnsignedLong ext.time) theModel)
        paramsVect := List.replicate (ext.GetNParams theModel).toNat indeterminate
        paramArray := List.replicate (ext.GetNParams theModel).toNat
          (List.replicate nIterations.toNat 0)
        paramSigmas := List.replicate (ext.GetNParams theModel).toNat 0
        calls := [Call.init_genrand (toUnsignedLong ext.time), Call.UseBootstrap]
        stdout := [Output.text (startBanner ext whichStatistic)] }
      hb hlen hint (by simp) (by simp)
      (by
        intro row hrow
        rw [List.mem_replicate] at hrow
        rw [hrow.2]
        simp)
  obtain ⟨s2, stats2, h2, hw2, hA2, hout2, hsig2, hcalls2, hstat2⟩ :=
    sigmaLoop_spec ext nIterations (ext.GetNParams theModel).toNat s1 hA1
  obtain ⟨s3, stats3, h3, hw3, hsig3, hA3, hrows3, hrow3, hcalls3, hstat3⟩ :=
    reportLoop_spec ext bestfitParams parameterLimits paramLimitsExist nIterations
      (ext.GetNParams theModel).toNat nIterations.toNat
      { s2 with
        stdout := s2.stdout ++
          [Output.text "\nStatistics for parameter values from bootstrap resampling",
           Output.rounds nIterations,
           Output.text "Best-fit\t\t Bootstrap      [68% conf.int., half-width]; (mean +/- standard deviation)\n"] }
      hb hlen hexist (by rw [hA2]; exact hA1) (by rw [hA2]; exact hrows1)
      (by rw [hsig2, hsig1]; simp)
      (intervals_in_rows ext parameterLimits paramLimitsExist theModel nIterations hidef)
  obtain ⟨file, h4, hnofile, hfile⟩ := saveSamples_spec ext s3.world s3.paramArray
    (ext.GetNParams theModel).toNat nIterations.toNat outputFileName hA3 hrows3 hopen
  have hrun : BootstrapErrors ext indeterminate bestfitParams parameterLimits paramLimitsExist
      theModel ftol nIterations nFreeParams whichStatistic outputFileName
      = .ok { world := s3.world
              calls := s3.calls
              stdout := s3.stdout ++
                (if 0 < outputFileName.length then [Output.writing outputFileName] else [])
              samples := s1.paramArray
              paramArray := s3.paramArray
              paramSigmas := s3.paramSigmas
              file := file
              bestfitParams := bestfitParams
              parameterLimits := parameterLimits } := by
    simp only [BootstrapErrors, h1, h2, h3, h4]
  refine ⟨_, recs, stats2 ++ stats3, hrun, hrl, ?_, ?_, hrefit, hA1, hrows1, hcols, ?_, rfl, rfl,
    hnofile, ?_, hchain⟩
  · show s3.calls = _
    rw [hcalls3]
    show s2.calls ++ stats3 = _
    rw [hcalls2, hcalls1, List.append_assoc]
  · intro c hc
    rcases List.mem_append.mp hc with h | h
    · exact hstat2 c h
    · exact hstat3 c h
  · intro i
    have := hrow3 i
    rw [hA2] at this
    exact this
  · intro hname
    obtain ⟨rows, hf, hlenRows, hget⟩ := hfile hname
    exact ⟨rows, _, hf, hlenRows, hget⟩

theorem refit_call {σ α S : Type} [Zero α] (ext : Externals σ α S)
    (nParams nFreeParams nValidPixels : Int) (start : List α)
    (parameterLimits : Option (List (mp_par α))) (theModel : σ) (ftol : α)
    (paramLimitsExist : Bool) (whichStatistic verboseLevel : Int) (r : Refit σ α)
    (hlen : ∀ table, parameterLimits = some table →
      nParams.toNat ≤ table.length ∧ nParams.toNat ≤ start.length)
    (hint : INT_MIN ≤ POP_SIZE_PER_PARAMETER * nParams ∧
      POP_SIZE_PER_PARAMETER * nParams ≤ INT_MAX)
    (hr : refit ext nParams nFreeParams nValidPixels start parameterLimits theModel ftol
      paramLimitsExist whichStatistic verboseLevel = .ok r) :
    r.paramsVect.length = start.length ∧
    ∃ solver, r.call = Call.fit
        (if whichStatistic = ext.FITSTAT_CHISQUARE ∨ whichStatistic = ext.FITSTAT_MODCASH then
          Backend.LevMar
         else if ext.NO_NLOPT = false then Backend.NMSimplex else Backend.DiffEvoln)
        start verboseLevel r.status r.paramsVect solver := by
  obtain ⟨r', solver, hr', h1, h2⟩ := refit_total ext nParams nFreeParams nValidPixels start
    parameterLimits theModel ftol paramLimitsExist whichStatistic verboseLevel hlen hint
  have hsame : r' = r := by
    rw [hr'] at hr; exact Except.ok.inj hr
  subst hsame
  exact ⟨h1, solver, h2⟩

/-- C5: in every run free of undefined behaviour the log is the seeding, `UseBootstrap`, one
resampling and one minimiser call per iteration, then statistics calls only, and the record
of every iteration is the return of the minimiser that `whichStatistic` (and the build flag)
selects, applied to the best-fit vector with verbosity `-1`: of `ext.LevMarFit` when
`whichStatistic` is `FITSTAT_CHISQUARE` or `FITSTAT_MODCASH`; otherwise of `ext.NMSimplexFit`
when `NO_NLOPT` is not defined and of `DiffEvolnFit` when it is. The same case applies to all
`nIterations` records. -/
theorem BootstrapErrors_backend_by_statistic {σ α S : Type} [Zero α] [Sub α] [Div α]
    [OfNat α 2] [LE α] [DecidableRel (fun a b : α => a ≤ b)] (ext : Externals σ α S)
    (indeterminate : α) (bestfitParams : List α) (parameterLimits : Option (List (mp_par α)))
    (paramLimitsExist : Bool) (theModel : σ) (ftol : α) (nIterations nFreeParams : Int)
    (whichStatistic : Int) (outputFileName : String)
    (hdef : Defined ext bestfitParams parameterLimits paramLimitsExist theModel outputFileName)
    (hidef : IntervalsDefined ext parameterLimits paramLimitsExist theModel nIterations) :
    ∃ (run : BootstrapRun σ α) (recs : List (Refit σ α)) (stats : List (Call α)),
      BootstrapErrors ext indeterminate bestfitParams parameterLimits paramLimitsExist theModel
        ftol nIterations nFreeParams whichStatistic outputFileName = .ok run ∧
      recs.length = nIterations.toNat ∧
      run.calls = [Call.init_genrand (toUnsignedLong ext.time), Call.UseBootstrap]
        ++ recs.flatMap iterationCalls ++ stats ∧
      (∀ c ∈ stats, c.isStatistic = true) ∧
      ∀ r ∈ recs, ∃ w : σ,
        ((whichStatistic = ext.FITSTAT_CHISQUARE ∨ whichStatistic = ext.FITSTAT_MODCASH) →
          r.status = (ext.LevMarFit (ext.GetNParams theModel) nFreeParams
            (ext.GetNValidPixels theModel) (bestfitParams.take (ext.GetNParams theModel).toNat)
            parameterLimits w ftol paramLimitsExist (-1)).status ∧
          r.paramsVect = (ext.LevMarFit (ext.GetNParams theModel) nFreeParams
            (ext.GetNValidPixels theModel) (bestfitParams.take (ext.GetNParams theModel).toNat)
            parameterLimits w ftol paramLimitsExist (-1)).paramVector ∧
          r.world = (ext.LevMarFit (ext.GetNParams theModel) nFreeParams
            (ext.GetNValidPixels theModel) (bestfitParams.take (ext.GetNParams theModel).toNat)
            parameterLimits w ftol paramLimitsExist (-1)).world ∧
          r.call = Call.fit Backend.LevMar (bestfitParams.take (ext.GetNParams theModel).toNat)
            (-1) r.status r.paramsVect []) ∧
        (¬ (whichStatistic = ext.FITSTAT_CHISQUARE ∨ whichStatistic = ext.FITSTAT_MODCASH) →
          ext.NO_NLOPT = false →
          r.status = (ext.NMSimplexFit (ext.GetNParams theModel)
            (bestfitParams.take (ext.GetNParams theModel).toNat) parameterLimits w ftol
            (-1)).status ∧
          r.paramsVect = (ext.NMSimplexFit (ext.GetNParams theModel)
            (bestfitParams.take (ext.GetNParams theModel).toNat) parameterLimits w ftol
            (-1)).paramVector ∧
          r.world = (ext.NMSimplexFit (ext.GetNParams theModel)
            (bestfitParams.take (ext.GetNParams theModel).toNat) parameterLimits w ftol
            (-1)).world ∧
          r.call = Call.fit Backend.NMSimplex
            (bestfitParams.take (ext.GetNParams theModel).toNat) (-1) r.status r.paramsVect []) ∧
        (¬ (whichStatistic = ext.FITSTAT_CHISQUARE ∨ whichStatistic = ext.FITSTAT_MODCASH) →
          ext.NO_NLOPT = true →
          ∃ d : DEOutcome σ α,
            DiffEvolnFit ext.de ext.GetFitStatistic (ext.GetNParams theModel)
              (bestfitParams.take (ext.GetNParams theModel).toNat) parameterLimits w ftol (-1)
              = .ok d ∧
            r.status = d.status ∧ r.paramsVect = d.paramVector ∧ r.world = d.world ∧
            r.call = Call.fit Backend.DiffEvoln
              (bestfitParams.take (ext.GetNParams theModel).toNat) (-1) r.status r.paramsVect
              d.solver) := by
  obtain ⟨run, recs, stats, hrun, hrl, hcalls, hstats, hrefit, -⟩ :=
    BootstrapErrors_run ext indeterminate bestfitParams parameterLimits paramLimitsExist theModel
      ftol nIterations nFreeParams whichStatistic outputFileName hdef hidef
  refine ⟨run, recs, stats, hrun, hrl, hcalls, hstats, ?_⟩
  intro r hr
  obtain ⟨w, hw⟩ := hrefit r hr
  unfold refit at hw
  refine ⟨w, ?_, ?_, ?_⟩
  · intro hstat
    simp only [if_pos hstat] at hw
    have := Except.ok.inj hw
    subst this
    exact ⟨rfl, rfl, rfl, rfl⟩
  · intro hstat hnl
    simp only [if_neg hstat, if_pos hnl] at hw
    have := Except.ok.inj hw
    subst this
    exact ⟨rfl, rfl, rfl, rfl⟩
  · intro hstat hnl
    have hnl' : ¬ ext.NO_NLOPT = false := by simp [hnl]
    simp only [if_neg hstat, if_neg hnl'] at hw
    cases hd : DiffEvolnFit ext.de ext.GetFitStatistic (ext.GetNParams theModel)
        (bestfitParams.take (ext.GetNParams theModel).toNat) parameterLimits w ftol (-1) with
    | error e =>
      rw [hd] at hw
      cases hw
    | ok d =>
      rw [hd] at hw
      have := Except.ok.inj hw
      subst this
      exact ⟨d, rfl, rfl, rfl, rfl, rfl⟩

/-- C6: in every run free of undefined behaviour, for every iteration `k`: the log holds one
resampling followed by one minimiser call; the minimiser is applied to the best-fit vector
(its first `nParams` entries, not the previous iteration's result) in the world obtained by
one `MakeBootstrapSample` from the world the previous iteration left (for `k = 0`, from the
world `UseBootstrap` left); the record of the iteration is what that application returned;
and column `k` of the sample matrix is the vector it left, whatever its status. The caller's
best-fit vector is as supplied when the function returns. -/
theorem BootstrapErrors_iterations {σ α S : Type} [Zero α] [Sub α] [Div α]
    [OfNat α 2] [LE α] [DecidableRel (fun a b : α => a ≤ b)] (ext : Externals σ α S)
    (indeterminate : α) (bestfitParams : List α) (parameterLimits : Option (List (mp_par α)))
    (paramLimitsExist : Bool) (theModel : σ) (ftol : α) (nIterations nFreeParams : Int)
    (whichStatistic : Int) (outputFileName : String)
    (hdef : Defined ext bestfitParams parameterLimits paramLimitsExist theModel outputFileName)
    (hidef : IntervalsDefined ext parameterLimits paramLimitsExist theModel nIterations) :
    ∃ (run : BootstrapRun σ α) (recs : List (Refit σ α)) (stats : List (Call α)),
      BootstrapErrors ext indeterminate bestfitParams parameterLimits paramLimitsExist theModel
        ftol nIterations nFreeParams whichStatistic outputFileName = .ok run ∧
      recs.length = nIterations.toNat ∧
      run.calls = [Call.init_genrand (toUnsignedLong ext.time), Call.UseBootstrap]
        ++ recs.flatMap iterationCalls ++ stats ∧
      (∀ c ∈ stats, c.isStatistic = true) ∧
      (∀ (k : Nat) (r : Refit σ α), recs[k]? = some r →
        ∃ w : σ,
          (ext.UseBootstrap (ext.init_genrand (toUnsignedLong ext.time) theModel)
            :: recs.map (fun r => r.world))[k]? = some w ∧
          ((r.status = (ext.LevMarFit (ext.GetNParams theModel) nFreeParams
                (ext.GetNValidPixels theModel)
                (bestfitParams.take (ext.GetNParams theModel).toNat) parameterLimits
                (ext.MakeBootstrapSample w) ftol paramLimitsExist (-1)).status ∧
              r.paramsVect = (ext.LevMarFit (ext.GetNParams theModel) nFreeParams
                (ext.GetNValidPixels theModel)
                (bestfitParams.take (ext.GetNParams theModel).toNat) parameterLimits
                (ext.MakeBootstrapSample w) ftol paramLimitsExist (-1)).paramVector ∧
              r.world = (ext.LevMarFit (ext.GetNParams theModel) nFreeParams
                (ext.GetNValidPixels theModel)
                (bestfitParams.take (ext.GetNParams theModel).toNat) parameterLimits
                (ext.MakeBootstrapSample w) ftol paramLimitsExist (-1)).world ∧
              r.call = Call.fit Backend.LevMar
                (bestfitParams.take (ext.GetNParams theModel).toNat) (-1) r.status r.paramsVect
                []) ∨
            (r.status = (ext.NMSimplexFit (ext.GetNParams theModel)
                (bestfitParams.take (ext.GetNParams theModel).toNat) parameterLimits
                (ext.MakeBootstrapSample w) ftol (-1)).status ∧
              r.paramsVect = (ext.NMSimplexFit (ext.GetNParams theModel)
                (bestfitParams.take (ext.GetNParams theModel).toNat) parameterLimits
                (ext.MakeBootstrapSample w) ftol (-1)).paramVector ∧
              r.world = (ext.NMSimplexFit (ext.GetNParams theModel)
                (bestfitParams.take (ext.GetNParams theModel).toNat) parameterLimits
                (ext.MakeBootstrapSample w) ftol (-1)).world ∧
              r.call = Call.fit Backend.NMSimplex
                (bestfitParams.take (ext.GetNParams theModel).toNat) (-1) r.status r.paramsVect
                []) ∨
            (∃ d : DEOutcome σ α,
              DiffEvolnFit ext.de ext.GetFitStatistic (ext.GetNParams theModel)
                (bestfitParams.take (ext.GetNParams theModel).toNat) parameterLimits
                (ext.MakeBootstrapSample w) ftol (-1) = .ok d ∧
              r.status = d.status ∧ r.paramsVect = d.paramVector ∧ r.world = d.world ∧
              r.call = Call.fit Backend.DiffEvoln
                (bestfitParams.take (ext.GetNParams theModel).toNat) (-1) r.status r.paramsVect
                d.solver)) ∧
          ∀ i : Nat, i < (ext.GetNParams theModel).toNat →
            (run.samples[i]?.bind (fun row => row[k]?)) = r.paramsVect[i]?) ∧
      run.bestfitParams = bestfitParams := by
  obtain ⟨run, recs, stats, hrun, hrl, hcalls, hstats, -, -, -, hcols, -, hbest, -, -, -,
    hchain⟩ :=
    BootstrapErrors_run ext indeterminate bestfitParams parameterLimits paramLimitsExist theModel
      ftol nIterations nFreeParams whichStatistic outputFileName hdef hidef
  refine ⟨run, recs, stats, hrun, hrl, hcalls, hstats, ?_, hbest⟩
  intro k r hk
  obtain ⟨w, hw, hwr⟩ := hchain k r hk
  have hklt : k < nIterations.toNat := by
    rw [← hrl]
    by_contra hge
    rw [List.getElem?_eq_none (by omega)] at hk
    cases hk
  refine ⟨w, hw, ?_, ?_⟩
  · unfold refit at hwr
    by_cases hstat : whichStatistic = ext.FITSTAT_CHISQUARE ∨
        whichStatistic = ext.FITSTAT_MODCASH
    · simp only [if_pos hstat] at hwr
      have := Except.ok.inj hwr
      subst this
      exact Or.inl ⟨rfl, rfl, rfl, rfl⟩
    · by_cases hnl : ext.NO_NLOPT = false
      · simp only [if_neg hstat, if_pos hnl] at hwr
        have := Except.ok.inj hwr
        subst this
        exact Or.inr (Or.inl ⟨rfl, rfl, rfl, rfl⟩)
      · simp only [if_neg hstat, if_neg hnl] at hwr
        cases hd : DiffEvolnFit ext.de ext.GetFitStatistic (ext.GetNParams theModel)
            (bestfitParams.take (ext.GetNParams theModel).toNat) parameterLimits
            (ext.MakeBootstrapSample w) ftol (-1) with
        | error e =>
          rw [hd] at hwr
          cases hwr
        | ok d =>
          rw [hd] at hwr
          have := Except.ok.inj hwr
          subst this
          exact Or.inr (Or.inr ⟨d, rfl, rfl, rfl, rfl, rfl⟩)
  · intro i hi
    rw [hcols i k hi hklt, hk]
    rfl

/-- C5 at concrete inputs: statistic `1` (chi-square) with three iterations in a build with
NLopt, and statistic `7` with three iterations in a build without it. -/
theorem BootstrapErrors_backend_by_statistic_witness :
    (∃ (run : BootstrapRun Int Int) (recs : List (Refit Int Int)) (stats : List (Call Int)),
      BootstrapErrors (demoExt 5 false) 0 [100, 200] (some demoFree) true 0 0 3 2 1 "out.txt"
        = .ok run ∧
      recs.length = (3 : Int).toNat ∧
      run.calls = [Call.init_genrand (toUnsignedLong (demoExt 5 false).time), Call.UseBootstrap]
        ++ recs.flatMap iterationCalls ++ stats ∧
      (∀ c ∈ stats, c.isStatistic = true) ∧
      ∀ r ∈ recs, ∃ w : Int,
        (((1 : Int) = (demoExt 5 false).FITSTAT_CHISQUARE ∨
            (1 : Int) = (demoExt 5 false).FITSTAT_MODCASH) →
          r.status = ((demoExt 5 false).LevMarFit ((demoExt 5 false).GetNParams 0) 2
            ((demoExt 5 false).GetNValidPixels 0)
            ([100, 200].take ((demoExt 5 false).GetNParams 0).toNat)
            (some demoFree) w 0 true (-1)).status ∧
          r.paramsVect = ((demoExt 5 false).LevMarFit ((demoExt 5 false).GetNParams 0) 2
            ((demoExt 5 false).GetNValidPixels 0)
            ([100, 200].take ((demoExt 5 false).GetNParams 0).toNat)
            (some demoFree) w 0 true (-1)).paramVector ∧
          r.world = ((demoExt 5 false).LevMarFit ((demoExt 5 false).GetNParams 0) 2
            ((demoExt 5 false).GetNValidPixels 0)
            ([100, 200].take ((demoExt 5 false).GetNParams 0).toNat)
            (some demoFree) w 0 true (-1)).world ∧
          r.call = Call.fit Backend.LevMar
            ([100, 200].take ((demoExt 5 false).GetNParams 0).toNat) (-1) r.status r.paramsVect
            []) ∧
        (¬ ((1 : Int) = (demoExt 5 false).FITSTAT_CHISQUARE ∨
            (1 : Int) = (demoExt 5 false).FITSTAT_MODCASH) →
          (demoExt 5 false).NO_NLOPT = false →
          r.status = ((demoExt 5 false).NMSimplexFit ((demoExt 5 false).GetNParams 0)
            ([100, 200].take ((demoExt 5 false).GetNParams 0).toNat) (some demoFree) w 0
            (-1)).status ∧
          r.paramsVect = ((demoExt 5 false).NMSimplexFit ((demoExt 5 false).GetNParams 0)
            ([100, 200].take ((demoExt 5 false).GetNParams 0).toNat) (some demoFree) w 0
            (-1)).paramVector ∧
          r.world = ((demoExt 5 false).NMSimplexFit ((demoExt 5 false).GetNParams 0)
            ([100, 200].take ((demoExt 5 false).GetNParams 0).toNat) (some demoFree) w 0
            (-1)).world ∧
          r.call = Call.fit Backend.NMSimplex
            ([100, 200].take ((demoExt 5 false).GetNParams 0).toNat) (-1) r.status r.paramsVect
            []) ∧
        (¬ ((1 : Int) = (demoExt 5 false).FITSTAT_CHISQUARE ∨
            (1 : Int) = (demoExt 5 false).FITSTAT_MODCASH) →
          (demoExt 5 false).NO_NLOPT = true →
          ∃ d : DEOutcome Int Int,
            DiffEvolnFit (demoExt 5 false).de (demoExt 5 false).GetFitStatistic
              ((demoExt 5 false).GetNParams 0)
              ([100, 200].take ((demoExt 5 false).GetNParams 0).toNat) (some demoFree) w 0 (-1)
              = .ok d ∧
            r.status = d.status ∧ r.paramsVect = d.paramVector ∧ r.world = d.world ∧
            r.call = Call.fit Backend.DiffEvoln
              ([100, 200].take ((demoExt 5 false).GetNParams 0).toNat) (-1) r.status
              r.paramsVect d.solver)) ∧
    (∃ (run : BootstrapRun Int Int) (recs : List (Refit Int Int)) (stats : List (Call Int)),
      BootstrapErrors (demoExt 5 true) 0 [100, 200] (some demoFree) true 0 0 3 2 7 "out.txt"
        = .ok run ∧
      recs.length = (3 : Int).toNat ∧
      run.calls = [Call.init_genrand (toUnsignedLong (demoExt 5 true).time), Call.UseBootstrap]
        ++ recs.flatMap iterationCalls ++ stats ∧
      (∀ c ∈ stats, c.isStatistic = true) ∧
      ∀ r ∈ recs, ∃ w : Int,
        (((7 : Int) = (demoExt 5 true).FITSTAT_CHISQUARE ∨
            (7 : Int) = (demoExt 5 true).FITSTAT_MODCASH) →
          r.status = ((demoExt 5 true).LevMarFit ((demoExt 5 true).GetNParams 0) 2
            ((demoExt 5 true).GetNValidPixels 0)
            ([100, 200].take ((demoExt 5 true).GetNParams 0).toNat)
            (some demoFree) w 0 true (-1)).status ∧
          r.paramsVect = ((demoExt 5 true).LevMarFit ((demoExt 5 true).GetNParams 0) 2
            ((demoExt 5 true).GetNValidPixels 0)
            ([100, 200].take ((demoExt 5 true).GetNParams 0).toNat)
            (some demoFree) w 0 true (-1)).paramVector ∧
          r.world = ((demoExt 5 true).LevMarFit ((demoExt 5 true).GetNParams 0) 2
            ((demoExt 5 true).GetNValidPixels 0)
            ([100, 200].take ((demoExt 5 true).GetNParams 0).toNat)
            (some demoFree) w 0 true (-1)).world ∧
          r.call = Call.fit Backend.LevMar
            ([100, 200].take ((demoExt 5 true).GetNParams 0).toNat) (-1) r.status r.paramsVect
            []) ∧
        (¬ ((7 : Int) = (demoExt 5 true).FITSTAT_CHISQUARE ∨
            (7 : Int) = (demoExt 5 true).FITSTAT_MODCASH) →
          (demoExt 5 true).NO_NLOPT = false →
          r.status = ((demoExt 5 true).NMSimplexFit ((demoExt 5 true).GetNParams 0)
            ([100, 200].take ((demoExt 5 true).GetNParams 0).toNat) (some demoFree) w 0
            (-1)).status ∧
          r.paramsVect = ((demoExt 5 true).NMSimplexFit ((demoExt 5 true).GetNParams 0)
            ([100, 200].take ((demoExt 5 true).GetNParams 0).toNat) (some demoFree) w 0
            (-1)).paramVector ∧
          r.world = ((demoExt 5 true).NMSimplexFit ((demoExt 5 true).GetNParams 0)
            ([100, 200].take ((demoExt 5 true).GetNParams 0).toNat) (some demoFree) w 0
            (-1)).world ∧
          r.call = Call.fit Backend.NMSimplex
            ([100, 200].take ((demoExt 5 true).GetNParams 0).toNat) (-1) r.status r.paramsVect
            []) ∧
        (¬ ((7 : Int) = (demoExt 5 true).FITSTAT_CHISQUARE ∨
            (7 : Int) = (demoExt 5 true).FITSTAT_MODCASH) →
          (demoExt 5 true).NO_NLOPT = true →
          ∃ d : DEOutcome Int Int,
            DiffEvolnFit (demoExt 5 true).de (demoExt 5 true).GetFitStatistic
              ((demoExt 5 true).GetNParams 0)
              ([100, 200].take ((demoExt 5 true).GetNParams 0).toNat) (some demoFree) w 0 (-1)
              = .ok d ∧
            r.status = d.status ∧ r.paramsVect = d.paramVector ∧ r.world = d.world ∧
            r.call = Call.fit Backend.DiffEvoln
              ([100, 200].take ((demoExt 5 true).GetNParams 0).toNat) (-1) r.status
              r.paramsVect d.solver)) :=
  ⟨BootstrapErrors_backend_by_statistic (demoExt 5 false) 0 [100, 200] (some demoFree) true 0 0
      3 2 1 "out.txt"
      ⟨by decide, by intro table h; cases h; decide, (by intro _ h; cases h), by decide,
        fun _ => rfl⟩
      (by intro _ _ _ _ _ _; decide),
   BootstrapErrors_backend_by_statistic (demoExt 5 true) 0 [100, 200] (some demoFree) true 0 0
      3 2 7 "out.txt"
      ⟨by decide, by intro table h; cases h; decide, (by intro _ h; cases h), by decide,
        fun _ => rfl⟩
      (by intro _ _ _ _ _ _; decide)⟩

/-- C6 at a concrete input: three iterations of the chi-square path. -/
theorem BootstrapErrors_iterations_witness :
    ∃ (run : BootstrapRun Int Int) (recs : List (Refit Int Int)) (stats : List (Call Int)),
      BootstrapErrors (demoExt 5 false) 0 [100, 200] (some demoFree) true 0 0 3 2 1 "out.txt"
        = .ok run ∧
      recs.length = (3 : Int).toNat ∧
      run.calls = [Call.init_genrand (toUnsignedLong (demoExt 5 false).time), Call.UseBootstrap]
        ++ recs.flatMap iterationCalls ++ stats ∧
      (∀ c ∈ stats, c.isStatistic = true) ∧
      (∀ (k : Nat) (r : Refit Int Int), recs[k]? = some r →
        ∃ w : Int,
          ((demoExt 5 false).UseBootstrap
              ((demoExt 5 false).init_genrand (toUnsignedLong (demoExt 5 false).time) 0)
            :: recs.map (fun r => r.world))[k]? = some w ∧
          ((r.status = ((demoExt 5 false).LevMarFit ((demoExt 5 false).GetNParams 0) 2
                ((demoExt 5 false).GetNValidPixels 0)
                ([100, 200].take ((demoExt 5 false).GetNParams 0).toNat) (some demoFree)
                ((demoExt 5 false).MakeBootstrapSample w) 0 true (-1)).status ∧
              r.paramsVect = ((demoExt 5 false).LevMarFit ((demoExt 5 false).GetNParams 0) 2
                ((demoExt 5 false).GetNValidPixels 0)
                ([100, 200].take ((demoExt 5 false).GetNParams 0).toNat) (some demoFree)
                ((demoExt 5 false).MakeBootstrapSample w) 0 true (-1)).paramVector ∧
              r.world = ((demoExt 5 false).LevMarFit ((demoExt 5 false).GetNParams 0) 2
                ((demoExt 5 false).GetNValidPixels 0)
                ([100, 200].take ((demoExt 5 false).GetNParams 0).toNat) (some demoFree)
                ((demoExt 5 false).MakeBootstrapSample w) 0 true (-1)).world ∧
              r.call = Call.fit Backend.LevMar
                ([100, 200].take ((demoExt 5 false).GetNParams 0).toNat) (-1) r.status
                r.paramsVect []) ∨
            (r.status = ((demoExt 5 false).NMSimplexFit ((demoExt 5 false).GetNParams 0)
                ([100, 200].take ((demoExt 5 false).GetNParams 0).toNat) (some demoFree)
                ((demoExt 5 false).MakeBootstrapSample w) 0 (-1)).status ∧
              r.paramsVect = ((demoExt 5 false).NMSimplexFit ((demoExt 5 false).GetNParams 0)
                ([100, 200].take ((demoExt 5 false).GetNParams 0).toNat) (some demoFree)
                ((demoExt 5 false).MakeBootstrapSample w) 0 (-1)).paramVector ∧
              r.world = ((demoExt 5 false).NMSimplexFit ((demoExt 5 false).GetNParams 0)
                ([100, 200].take ((demoExt 5 false).GetNParams 0).toNat) (some demoFree)
                ((demoExt 5 false).MakeBootstrapSample w) 0 (-1)).world ∧
              r.call = Call.fit Backend.NMSimplex
                ([100, 200].take ((demoExt 5 false).GetNParams 0).toNat) (-1) r.status
                r.paramsVect []) ∨
            (∃ d : DEOutcome Int Int,
              DiffEvolnFit (demoExt 5 false).de (demoExt 5 false).GetFitStatistic
                ((demoExt 5 false).GetNParams 0)
                ([100, 200].take ((demoExt 5 false).GetNParams 0).toNat) (some demoFree)
                ((demoExt 5 false).MakeBootstrapSample w) 0 (-1) = .ok d ∧
              r.status = d.status ∧ r.paramsVect = d.paramVector ∧ r.world = d.world ∧
              r.call = Call.fit Backend.DiffEvoln
                ([100, 200].take ((demoExt 5 false).GetNParams 0).toNat) (-1) r.status
                r.paramsVect d.solver)) ∧
          ∀ i : Nat, i < ((demoExt 5 false).GetNParams 0).toNat →
            (run.samples[i]?.bind (fun row => row[k]?)) = r.paramsVect[i]?) ∧
      run.bestfitParams = [100, 200] :=
  BootstrapErrors_iterations (demoExt 5 false) 0 [100, 200] (some demoFree) true 0 0 3 2 1
    "out.txt"
    ⟨by decide, by intro table h; cases h; decide, (by intro _ h; cases h), by decide,
      fun _ => rfl⟩
    (by intro _ _ _ _ _ _; decide)

/-- C10, counterexample: `BootstrapErrors` has no seed argument. Two runs with identical
arguments, one at clock reading 5 and one at clock reading 7, give different sample
matrices. -/
theorem BootstrapErrors_same_arguments_different_samples :
    ∃ run1 run2 : BootstrapRun Int Int,
      BootstrapErrors (demoExt 5 false) 0 [100, 200] (some demoFree) true 0 0 3 2 1 ""
        = .ok run1 ∧
      BootstrapErrors (demoExt 7 false) 0 [100, 200] (some demoFree) true 0 0 3 2 1 ""
        = .ok run2 ∧
      run1.samples = [[94, 93, 92], [206, 207, 208]] ∧
      run2.samples = [[92, 91, 90], [208, 209, 210]] :=
  ⟨_, _, rfl, rfl, rfl, rfl⟩

/-- C10, amended: `BootstrapErrors` calls `init_genrand` exactly once per run, as its first
call and so before the first resampling, and the seed is the clock reading `time(NULL)` cast
to `unsigned long`, not a value supplied by the caller; a run with the same arguments at a
clock reading that gives the same seed returns the same result. -/
theorem BootstrapErrors_seeds_once_from_clock {σ α S : Type} [Zero α] [Sub α] [Div α]
    [OfNat α 2] [LE α] [DecidableRel (fun a b : α => a ≤ b)] (ext : Externals σ α S)
    (indeterminate : α) (bestfitParams : List α) (parameterLimits : Option (List (mp_par α)))
    (paramLimitsExist : Bool) (theModel : σ) (ftol : α) (nIterations nFreeParams : Int)
    (whichStatistic : Int) (outputFileName : String)
    (hdef : Defined ext bestfitParams parameterLimits paramLimitsExist theModel outputFileName)
    (hidef : IntervalsDefined ext parameterLimits paramLimitsExist theModel nIterations) :
    ∃ (run : BootstrapRun σ α) (rest : List (Call α)),
      BootstrapErrors ext indeterminate bestfitParams parameterLimits paramLimitsExist theModel
        ftol nIterations nFreeParams whichStatistic outputFileName = .ok run ∧
      run.calls = Call.init_genrand (toUnsignedLong ext.time) :: rest ∧
      (∀ seed, Call.init_genrand seed ∉ rest) ∧
      (∀ clock : Int, toUnsignedLong clock = toUnsignedLong ext.time →
        BootstrapErrors { ext with time := clock } indeterminate bestfitParams parameterLimits
          paramLimitsExist theModel ftol nIterations nFreeParams whichStatistic outputFileName
          = .ok run) := by
  obtain ⟨run, recs, stats, hrun, -, hcalls, hstats, hrefit, -⟩ :=
    BootstrapErrors_run ext indeterminate bestfitParams parameterLimits paramLimitsExist theModel
      ftol nIterations nFreeParams whichStatistic outputFileName hdef hidef
  obtain ⟨hb, hlen, -, hint, -⟩ := hdef
  have htake : (bestfitParams.take (ext.GetNParams theModel).toNat).length
      = (ext.GetNParams theModel).toNat := by
    simp [List.length_take, hb]
  refine ⟨run, Call.UseBootstrap :: (recs.flatMap iterationCalls ++ stats), hrun, ?_, ?_, ?_⟩
  · rw [hcalls]
    simp
  · intro seed hmem
    rcases List.mem_cons.mp hmem with h | h
    · cases h
    · rcases List.mem_append.mp h with h | h
      · obtain ⟨r, hr, hin⟩ := List.mem_flatMap.mp h
        obtain ⟨w, hw⟩ := hrefit r hr
        obtain ⟨-, solver, hcall⟩ := refit_call ext _ _ _ _ parameterLimits w ftol
          paramLimitsExist whichStatistic (-1) r
          (fun table ht => ⟨hlen table ht, by rw [htake]⟩) hint hw
        simp only [iterationCalls, List.mem_cons, List.mem_singleton, List.not_mem_nil,
          or_false] at hin
        rcases hin with hin | hin
        · cases hin
        · rw [hcall] at hin
          cases hin
      · have := hstats _ h
        simp [Call.isStatistic] at this
  · intro clock hclock
    rw [← hrun]
    simp only [BootstrapErrors, hclock]
    rfl

/-- C10, amended, at a concrete input: clock reading 5, three iterations. -/
theorem BootstrapErrors_seeds_once_from_clock_witness :
    ∃ (run : BootstrapRun Int Int) (rest : List (Call Int)),
      BootstrapErrors (demoExt 5 false) 0 [100, 200] (some demoFree) true 0 0 3 2 1 ""
        = .ok run ∧
      run.calls = Call.init_genrand (toUnsignedLong (demoExt 5 false).time) :: rest ∧
      (∀ seed, Call.init_genrand seed ∉ rest) ∧
      (∀ clock : Int, toUnsignedLong clock = toUnsignedLong (demoExt 5 false).time →
        BootstrapErrors { demoExt 5 false with time := clock } 0 [100, 200] (some demoFree)
          true 0 0 3 2 1 "" = .ok run) :=
  BootstrapErrors_seeds_once_from_clock (demoExt 5 false) 0 [100, 200] (some demoFree) true 0 0
    3 2 1 ""
    ⟨by decide, by intro table h; cases h; decide, (by intro _ h; cases h), by decide,
      fun h => absurd h (by decide)⟩
    (by intro _ _ _ _ _ _; decide)

/-- C4, failing input evaluated: three iterations produce `(94, 206)`, `(93, 207)`,
`(92, 208)` (the columns of `samples`), but the data lines written to the file are
`(92, 206)`, `(93, 207)`, `(94, 208)`: the first row was sorted in place by
`ConfidenceInterval` before the file was written, so the first line is not the result of the
first iteration (nor of any iteration). -/
theorem BootstrapErrors_file_written_after_sorting :
    ∃ run, BootstrapErrors (demoExt 5 false) 0 [100, 200] (some demoFree) true 0 0 3 2 1
        "out.txt" = .ok run ∧
      run.samples = [[94, 93, 92], [206, 207, 208]] ∧
      run.file = some { name := "out.txt", header := "a\tb",
                        rows := [[92, 206], [93, 207], [94, 208]] } :=
  ⟨_, rfl, rfl, rfl⟩

/-- C7, failing input evaluated: called without a limits table (`paramLimitsExist` false,
`parameterLimits` `NULL`), so that no parameter is fixed, `BootstrapErrors` makes no
`ConfidenceInterval` call and reports both parameters with the "[fixed parameter]" line. -/
theorem BootstrapErrors_reports_free_parameters_as_fixed :
    ∃ run, BootstrapErrors (demoExt 5 false) 0 [100, 200] none false 0 0 3 2 1 "" = .ok run ∧
      run.samples = [[94, 93, 92], [206, 207, 208]] ∧
      run.calls.filter Call.isStatistic =
        [Call.StandardDeviation [94, 93, 92] 3, Call.StandardDeviation [206, 207, 208] 3] ∧
      run.stdout.drop 7 = [Output.fixedParameter "a" 100, Output.fixedParameter "b" 200] :=
  ⟨_, rfl, rfl, rfl, rfl⟩

/-! ## Output files that cannot be opened -/

/-- `SaveParameters` on a file that cannot be opened: the process exits with status `-1` after
the message on `stderr`; nothing is written to a file. -/
theorem SaveParameters_unopened {σ α : Type} (fopen : String → Bool) (TimeStamp : String)
    (PrintModelParams : List α → σ → List String) (params : List α) (model : σ)
    (parameterInfo : Option (List (mp_par α))) (outputFilename : String) (argc : Int)
    (argv : List String) (hopen : fopen outputFilename = false) :
    SaveParameters fopen TimeStamp PrintModelParams params model parameterInfo outputFilename
        argc argv
      = .ok (SaveOutcome.exited (-1)
          ["\n   Couldn't open file \"" ++ outputFilename ++ "\"\n\n"]) := by
  simp [SaveParameters, hopen]

/-- `BootstrapErrors` asked for an output file that cannot be opened: on every call that is
otherwise free of undefined behaviour, the iterations and the report are carried out and the
function then writes through the `NULL` handle. -/
theorem BootstrapErrors_unopened_file {σ α S : Type} [Zero α] [Sub α] [Div α] [OfNat α 2]
    [LE α] [DecidableRel (fun a b : α => a ≤ b)] (ext : Externals σ α S) (indeterminate : α)
    (bestfitParams : List α) (parameterLimits : Option (List (mp_par α)))
    (paramLimitsExist : Bool) (theModel : σ) (ftol : α) (nIterations nFreeParams : Int)
    (whichStatistic : Int) (outputFileName : String)
    (hb : (ext.GetNParams theModel).toNat ≤ bestfitParams.length)
    (hlen : ∀ table, parameterLimits = some table →
      (ext.GetNParams theModel).toNat ≤ table.length)
    (hexist : paramLimitsExist = true → parameterLimits ≠ none)
    (hint : INT_MIN ≤ POP_SIZE_PER_PARAMETER * ext.GetNParams theModel ∧
      POP_SIZE_PER_PARAMETER * ext.GetNParams theModel ≤ INT_MAX)
    (hidef : IntervalsDefined ext parameterLimits paramLimitsExist theModel nIterations)
    (hname : 0 < outputFileName.length) (hopen : ext.fopen outputFileName = false) :
    BootstrapErrors ext indeterminate bestfitParams parameterLimits paramLimitsExist theModel
      ftol nIterations nFreeParams whichStatistic outputFileName = .error Fault.nullPointer := by
  obtain ⟨s1, recs, h1, hA1, hrows1, hsig1, -⟩ :=
    iterations_spec ext bestfitParams parameterLimits paramLimitsExist ftol nFreeParams
      whichStatistic (ext.GetNParams theModel) (ext.GetNValidPixels theModel) (-1)
      nIterations.toNat
      { world := ext.UseBootstrap (ext.init_genrand (toUnsignedLong ext.time) theModel)
        paramsVect := List.replicate (ext.GetNParams theModel).toNat indeterminate
        paramArray := List.replicate (ext.GetNParams theModel).toNat
          (List.replicate nIterations.toNat 0)
        paramSigmas := List.replicate (ext.GetNParams theModel).toNat 0
        calls := [Call.init_genrand (toUnsignedLong ext.time), Call.UseBootstrap]
        stdout := [Output.text (startBanner ext whichStatistic)] }
      hb hlen hint (by simp) (by simp)
      (by
        intro row hrow
        rw [List.mem_replicate] at hrow
        rw [hrow.2]
        simp)
  obtain ⟨s2, stats2, h2, -, hA2, -, hsig2, -⟩ :=
    sigmaLoop_spec ext nIterations (ext.GetNParams theModel).toNat s1 hA1
  obtain ⟨s3, stats3, h3, -⟩ :=
    reportLoop_spec ext bestfitParams parameterLimits paramLimitsExist nIterations
      (ext.GetNParams theModel).toNat nIterations.toNat
      { s2 with
        stdout := s2.stdout ++
          [Output.text "\nStatistics for parameter values from bootstrap resampling",
           Output.rounds nIterations,
           Output.text "Best-fit\t\t Bootstrap      [68% conf.int., half-width]; (mean +/- standard deviation)\n"] }
      hb hlen hexist (by rw [hA2]; exact hA1) (by rw [hA2]; exact hrows1)
      (by rw [hsig2, hsig1]; simp)
      (intervals_in_rows ext parameterLimits paramLimitsExist theModel nIterations hidef)
  have h4 : saveSamples ext s3.world s3.paramArray (ext.GetNParams theModel).toNat
      nIterations.toNat outputFileName = .error Fault.nullPointer := by
    simp [saveSamples, hname, hopen]
  simp only [BootstrapErrors, h1, h2, h3, h4]

/-- C11, failing input evaluated: with an output file that cannot be opened, `SaveParameters`
exits with status `-1` and writes nothing, as claimed, but `BootstrapErrors` has no such test:
after its three iterations and its report it writes the header line through the `NULL` handle
(the fault `nullPointer`); the same call without a file name returns normally. -/
theorem unopened_file_SaveParameters_exits_BootstrapErrors_writes :
    SaveParameters (fun _ => false) "now" (fun (_ : List Int) (_ : Int) => ["a\t\t100\n"])
        [100, 200] 0 none "out.txt" 2 ["imfit", "data.fits"]
      = .ok (SaveOutcome.exited (-1) ["\n   Couldn't open file \"out.txt\"\n\n"]) ∧
    BootstrapErrors demoExtNoFile 0 [100, 200] (some demoFree) true 0 0 3 2 1 "out.txt"
      = .error Fault.nullPointer ∧
    ∃ run, BootstrapErrors demoExtNoFile 0 [100, 200] (some demoFree) true 0 0 3 2 1 ""
      = .ok run ∧ run.file = none :=
  ⟨rfl, rfl, _, rfl, rfl⟩

/-! ## What the statistics helpers are handed -/

theorem readAt_mem {β : Type} {xs : List β} {i : Nat} {x : β} (h : readAt xs i = .ok x) :
    x ∈ xs := by
  unfold readAt at h
  cases hx : xs[i]? with
  | none => rw [hx] at h; cases h
  | some y =>
    rw [hx] at h
    cases h
    exact List.mem_iff_getElem?.mpr ⟨i, hx⟩

theorem forLoop_preserves {β : Type} (body : Nat → β → Except Fault β) (P : β → Prop)
    (hstep : ∀ i t t', P t → body i t = .ok t' → P t') :
    ∀ (n : Nat) (s0 s : β), P s0 → forLoop body n s0 = .ok s → P s := by
  intro n
  induction n with
  | zero =>
    intro s0 s h0 h
    cases h
    exact h0
  | succ k ih =>
    intro s0 s h0 h
    simp only [forLoop] at h
    cases hk : forLoop body k s0 with
    | error e => rw [hk] at h; cases h
    | ok t =>
      rw [hk] at h
      exact hstep k t s (ih s0 t h0 hk) h

theorem sigmaStep_lengths {σ α S : Type} (ext : Externals σ α S) (nIterations : Int) (i : Nat)
    (t t' : BootState σ α)
    (hP : (∀ row ∈ t.paramArray, row.length = nIterations.toNat) ∧
      ∀ c ∈ t.calls, c.isStatistic = true → c.statisticOfLength nIterations)
    (h : sigmaStep ext nIterations i t = .ok t') :
    (∀ row ∈ t'.paramArray, row.length = nIterations.toNat) ∧
      ∀ c ∈ t'.calls, c.isStatistic = true → c.statisticOfLength nIterations := by
  obtain ⟨hrows, hcalls⟩ := hP
  unfold sigmaStep at h
  cases hr : readAt t.paramArray i with
  | error e => rw [hr] at h; cases h
  | ok row =>
    rw [hr] at h
    cases h
    refine ⟨hrows, ?_⟩
    intro c hc hstat
    rcases List.mem_append.mp hc with h1 | h1
    · exact hcalls c h1 hstat
    · rw [List.mem_singleton] at h1
      subst h1
      exact ⟨rfl, hrows row (readAt_mem hr)⟩

theorem reportStep_lengths {σ α S : Type} [Sub α] [Div α] [OfNat α 2] [LE α]
    [DecidableRel (fun a b : α => a ≤ b)] (ext : Externals σ α S) (bestfitParams : List α)
    (parameterLimits : Option (List (mp_par α))) (paramLimitsExist : Bool) (nIterations : Int)
    (i : Nat) (t t' : BootState σ α)
    (hP : (∀ row ∈ t.paramArray, row.length = nIterations.toNat) ∧
      ∀ c ∈ t.calls, c.isStatistic = true → c.statisticOfLength nIterations)
    (h : reportStep ext bestfitParams parameterLimits paramLimitsExist nIterations i t
      = .ok t') :
    (∀ row ∈ t'.paramArray, row.length = nIterations.toNat) ∧
      ∀ c ∈ t'.calls, c.isStatistic = true → c.statisticOfLength nIterations := by
  obtain ⟨hrows, hcalls⟩ := hP
  have hfixed : ∀ u : BootState σ α, reportFixed ext bestfitParams i t = .ok u →
      (∀ row ∈ u.paramArray, row.length = nIterations.toNat) ∧
        ∀ c ∈ u.calls, c.isStatistic = true → c.statisticOfLength nIterations := by
    intro u hu
    unfold reportFixed at hu
    cases hb : readAt bestfitParams i with
    | error e => rw [hb] at hu; cases hu
    | ok best =>
      rw [hb] at hu
      cases hu
      exact ⟨hrows, hcalls⟩
  have hinterval : ∀ u : BootState σ α,
      reportInterval ext bestfitParams nIterations i t = .ok u →
      (∀ row ∈ u.paramArray, row.length = nIterations.toNat) ∧
        ∀ c ∈ u.calls, c.isStatistic = true → c.statisticOfLength nIterations := by
    intro u hu
    unfold reportInterval at hu
    cases hr : readAt t.paramArray i with
    | error e => rw [hr] at hu; cases hu
    | ok row =>
      rw [hr] at hu
      simp only at hu
      cases hci : ConfidenceInterval ext.intervalIndices row nIterations with
      | error e => rw [hci] at hu; cases hu
      | ok ci =>
        rw [hci] at hu
        simp only at hu
        have hfst := ConfidenceInterval_fst ext.intervalIndices row nIterations ci hci
        cases hb : readAt bestfitParams i with
        | error e => rw [hb] at hu; cases hu
        | ok best =>
          rw [hb] at hu
          simp only at hu
          cases hsg : readAt t.paramSigmas i with
          | error e => rw [hsg] at hu; cases hu
          | ok sigma =>
            rw [hsg] at hu
            cases hu
            have hrow : row.length = nIterations.toNat := hrows row (readAt_mem hr)
            have hsorted : ci.1.length = nIterations.toNat := by
              rw [hfst, List.length_insertionSort]; exact hrow
            refine ⟨?_, ?_⟩
            · intro row' hmem
              rcases List.mem_or_eq_of_mem_set hmem with h1 | h1
              · exact hrows row' h1
              · rw [h1]; exact hsorted
            · intro c hc hstat
              rcases List.mem_append.mp hc with h1 | h1
              · exact hcalls c h1 hstat
              · simp only [List.mem_cons, List.mem_singleton, List.not_mem_nil, or_false] at h1
                rcases h1 with h1 | h1
                · subst h1; exact ⟨rfl, hrow⟩
                · subst h1; exact ⟨rfl, hsorted⟩
  unfold reportStep at h
  by_cases hple : paramLimitsExist = true
  · rw [if_pos hple] at h
    cases hlim : parameterLimits with
    | none => rw [hlim] at h; cases h
    | some table =>
      rw [hlim] at h
      simp only at h
      cases hp : readAt table i with
      | error e => rw [hp] at h; cases h
      | ok p =>
        rw [hp] at h
        simp only at h
        by_cases hfix : p.fixed = 0
        · rw [if_pos hfix] at h
          exact hinterval t' h
        · rw [if_neg hfix] at h
          exact hfixed t' h
  · rw [if_neg hple] at h
    exact hfixed t' h

/-- On a call free of undefined behaviour, every statistics call in the log of
`BootstrapErrors` is handed the count `nIterations` and a row of exactly that many values. -/
theorem BootstrapErrors_statistics_lengths {σ α S : Type} [Zero α] [Sub α] [Div α]
    [OfNat α 2] [LE α] [DecidableRel (fun a b : α => a ≤ b)] (ext : Externals σ α S)
    (indeterminate : α) (bestfitParams : List α) (parameterLimits : Option (List (mp_par α)))
    (paramLimitsExist : Bool) (theModel : σ) (ftol : α) (nIterations nFreeParams : Int)
    (whichStatistic : Int) (outputFileName : String)
    (hdef : Defined ext bestfitParams parameterLimits paramLimitsExist theModel outputFileName)
    (hidef : IntervalsDefined ext parameterLimits paramLimitsExist theModel nIterations) :
    ∃ run : BootstrapRun σ α,
      BootstrapErrors ext indeterminate bestfitParams parameterLimits paramLimitsExist theModel
        ftol nIterations nFreeParams whichStatistic outputFileName = .ok run ∧
      ∀ c ∈ run.calls, c.isStatistic = true → c.statisticOfLength nIterations := by
  obtain ⟨hb, hlen, hexist, hint, hopen⟩ := hdef
  have htake : (bestfitParams.take (ext.GetNParams theModel).toNat).length
      = (ext.GetNParams theModel).toNat := by
    simp [List.length_take, hb]
  obtain ⟨s1, recs, h1, hA1, hrows1, hsig1, -, hcalls1, hrefit, -⟩ :=
    iterations_spec ext bestfitParams parameterLimits paramLimitsExist ftol nFreeParams
      whichStatistic (ext.GetNParams theModel) (ext.GetNValidPixels theModel) (-1)
      nIterations.toNat
      { world := ext.UseBootstrap (ext.init_genrand (toUnsignedLong ext.time) theModel)
        paramsVect := List.replicate (ext.GetNParams theModel).toNat indeterminate
        paramArray := List.replicate (ext.GetNParams theModel).toNat
          (List.replicate nIterations.toNat 0)
        paramSigmas := List.replicate (ext.GetNParams theModel).toNat 0
        calls := [Call.init_genrand (toUnsignedLong ext.time), Call.UseBootstrap]
        stdout := [Output.text (startBanner ext whichStatistic)] }
      hb hlen hint (by simp) (by simp)
      (by
        intro row hrow
        rw [List.mem_replicate] at hrow
        rw [hrow.2]
        simp)
  obtain ⟨s2, stats2, h2, -, hA2, -, hsig2, -⟩ :=
    sigmaLoop_spec ext nIterations (ext.GetNParams theModel).toNat s1 hA1
  obtain ⟨s3, stats3, h3, -, -, hA3, hrows3, -⟩ :=
    reportLoop_spec ext bestfitParams parameterLimits paramLimitsExist nIterations
      (ext.GetNParams theModel).toNat nIterations.toNat
      { s2 with
        stdout := s2.stdout ++
          [Output.text "\nStatistics for parameter values from bootstrap resampling",
           Output.rounds nIterations,
           Output.text "Best-fit\t\t Bootstrap      [68% conf.int., half-width]; (mean +/- standard deviation)\n"] }
      hb hlen hexist (by rw [hA2]; exact hA1) (by rw [hA2]; exact hrows1)
      (by rw [hsig2, hsig1]; simp)
      (intervals_in_rows ext parameterLimits paramLimitsExist theModel nIterations hidef)
  obtain ⟨file, h4, -⟩ := saveSamples_spec ext s3.world s3.paramArray
    (ext.GetNParams theModel).toNat nIterations.toNat outputFileName hA3 hrows3 hopen
  have hrun : BootstrapErrors ext indeterminate bestfitParams parameterLimits paramLimitsExist
      theModel ftol nIterations nFreeParams whichStatistic outputFileName
      = .ok { world := s3.world
              calls := s3.calls
              stdout := s3.stdout ++
                (if 0 < outputFileName.length then [Output.writing outputFileName] else [])
              samples := s1.paramArray
              paramArray := s3.paramArray
              paramSigmas := s3.paramSigmas
              file := file
              bestfitParams := bestfitParams
              parameterLimits := parameterLimits } := by
    simp only [BootstrapErrors, h1, h2, h3, h4]
  have hP1 : (∀ row ∈ s1.paramArray, row.length = nIterations.toNat) ∧
      ∀ c ∈ s1.calls, c.isStatistic = true → c.statisticOfLength nIterations := by
    refine ⟨hrows1, ?_⟩
    intro c hc hstat
    rw [hcalls1] at hc
    rcases List.mem_append.mp hc with h | h
    · simp only [List.mem_cons, List.mem_singleton, List.not_mem_nil, or_false] at h
      rcases h with h | h <;> subst h <;> cases hstat
    · obtain ⟨r, hr, hin⟩ := List.mem_flatMap.mp h
      obtain ⟨w, hw⟩ := hrefit r hr
      obtain ⟨-, solver, hcall⟩ := refit_call ext _ _ _ _ parameterLimits w ftol
        paramLimitsExist whichStatistic (-1) r
        (fun table ht => ⟨hlen table ht, by rw [htake]⟩) hint hw
      simp only [iterationCalls, List.mem_cons, List.mem_singleton, List.not_mem_nil,
        or_false] at hin
      rcases hin with hin | hin
      · subst hin; cases hstat
      · rw [hin, hcall] at hstat; cases hstat
  have hP2 := forLoop_preserves (sigmaStep ext nIterations)
    (fun s : BootState σ α => (∀ row ∈ s.paramArray, row.length = nIterations.toNat) ∧
      ∀ c ∈ s.calls, c.isStatistic = true → c.statisticOfLength nIterations)
    (fun i t t' hP h => sigmaStep_lengths ext nIterations i t t' hP h)
    (ext.GetNParams theModel).toNat s1 s2 hP1 h2
  have hP3 := forLoop_preserves
    (reportStep ext bestfitParams parameterLimits paramLimitsExist nIterations)
    (fun s : BootState σ α => (∀ row ∈ s.paramArray, row.length = nIterations.toNat) ∧
      ∀ c ∈ s.calls, c.isStatistic = true → c.statisticOfLength nIterations)
    (fun i t t' hP h => reportStep_lengths ext bestfitParams parameterLimits paramLimitsExist
      nIterations i t t' hP h)
    (ext.GetNParams theModel).toNat
    { s2 with
      stdout := s2.stdout ++
        [Output.text "\nStatistics for parameter values from bootstrap resampling",
         Output.rounds nIterations,
         Output.text "Best-fit\t\t Bootstrap      [68% conf.int., half-width]; (mean +/- standard deviation)\n"] }
    s3 hP2 h3
  exact ⟨_, hrun, hP3.2⟩

/-- A run with `nIterations = 0` in which no confidence interval is asked for (no parameter
has `fixed == 0` in an existing limits table) returns: it makes no resampling and no minimiser
call (its log is the seeding, `UseBootstrap` and statistics calls only), leaves a sample matrix
whose rows are all empty, hands every statistics call the empty row and the count 0, and a
file, if one is written, has no data line. -/
theorem BootstrapErrors_zero_iterations_no_interval {σ α S : Type} [Zero α] [Sub α] [Div α]
    [OfNat α 2] [LE α] [DecidableRel (fun a b : α => a ≤ b)] (ext : Externals σ α S)
    (indeterminate : α) (bestfitParams : List α) (parameterLimits : Option (List (mp_par α)))
    (paramLimitsExist : Bool) (theModel : σ) (ftol : α) (nFreeParams : Int)
    (whichStatistic : Int) (outputFileName : String)
    (hdef : Defined ext bestfitParams parameterLimits paramLimitsExist theModel outputFileName)
    (hidef : IntervalsDefined ext parameterLimits paramLimitsExist theModel 0) :
    ∃ (run : BootstrapRun σ α) (stats : List (Call α)),
      BootstrapErrors ext indeterminate bestfitParams parameterLimits paramLimitsExist theModel
        ftol 0 nFreeParams whichStatistic outputFileName = .ok run ∧
      run.calls = [Call.init_genrand (toUnsignedLong ext.time), Call.UseBootstrap] ++ stats ∧
      (∀ c ∈ stats, c = Call.StandardDeviation [] 0 ∨ c = Call.ConfidenceInterval [] 0 ∨
        c = Call.Mean [] 0) ∧
      run.samples = List.replicate (ext.GetNParams theModel).toNat [] ∧
      run.paramArray = List.replicate (ext.GetNParams theModel).toNat [] ∧
      (∀ f, run.file = some f → f.rows = []) := by
  obtain ⟨run, recs, stats, hrun, hrl, hcalls, hstats, -, hsl, hrows, -, hfinal, -, -, hnofile,
    hfile, -⟩ := BootstrapErrors_run ext indeterminate bestfitParams parameterLimits
      paramLimitsExist theModel ftol 0 nFreeParams whichStatistic outputFileName hdef hidef
  obtain ⟨run', hrun', hlengths⟩ := BootstrapErrors_statistics_lengths ext indeterminate
    bestfitParams parameterLimits paramLimitsExist theModel ftol 0 nFreeParams whichStatistic
    outputFileName hdef hidef
  have hsame : run' = run := by
    rw [hrun'] at hrun; exact Except.ok.inj hrun
  subst hsame
  have hrecs : recs = [] := List.length_eq_zero.mp (by simpa using hrl)
  subst hrecs
  have hcalls' : run'.calls
      = [Call.init_genrand (toUnsignedLong ext.time), Call.UseBootstrap] ++ stats := by
    rw [hcalls]; simp
  have hempty : ∀ row ∈ run'.samples, row = [] := by
    intro row hrow
    exact List.length_eq_zero.mp (by simpa using hrows row hrow)
  have hsamples : run'.samples = List.replicate (ext.GetNParams theModel).toNat [] :=
    List.eq_replicate_iff.mpr ⟨hsl, hempty⟩
  refine ⟨run', stats, hrun', hcalls', ?_, hsamples, ?_, ?_⟩
  · intro c hc
    have hmem : c ∈ run'.calls := by
      rw [hcalls']; exact List.mem_append_right _ hc
    have hlen := hlengths c hmem (hstats c hc)
    cases c with
    | StandardDeviation vals n =>
      obtain ⟨hn, hv⟩ := hlen
      have hnil : vals = [] := List.length_eq_zero.mp (by simpa using hv)
      subst hn
      subst hnil
      exact Or.inl rfl
    | ConfidenceInterval vals n =>
      obtain ⟨hn, hv⟩ := hlen
      have hnil : vals = [] := List.length_eq_zero.mp (by simpa using hv)
      subst hn
      subst hnil
      exact Or.inr (Or.inl rfl)
    | Mean vals n =>
      obtain ⟨hn, hv⟩ := hlen
      have hnil : vals = [] := List.length_eq_zero.mp (by simpa using hv)
      subst hn
      subst hnil
      exact Or.inr (Or.inr rfl)
    | init_genrand seed => exact absurd hlen id
    | UseBootstrap => exact absurd hlen id
    | MakeBootstrapSample => exact absurd hlen id
    | fit b st v status res sol => exact absurd hlen id
  · rw [← hsamples]
    apply List.ext_getElem?
    intro i
    rcases hfinal i with h | ⟨-, -, row, hrow, hsorted⟩
    · exact h
    · have hnil : row = [] := hempty row (List.mem_iff_getElem?.mpr ⟨i, hrow⟩)
      subst hnil
      rw [hsorted, hrow]
      rfl
  · intro f hf
    by_cases hname : 0 < outputFileName.length
    · obtain ⟨rows, header, hfeq, hlenRows, -⟩ := hfile hname
      rw [hfeq] at hf
      cases hf
      exact List.length_eq_zero.mp (by simpa using hlenRows)
    · rw [hnofile hname] at hf
      cases hf

/-! ## Confidence intervals of rows that are too short -/

theorem readIndex_fault {β : Type} (xs : List β) (i : Int)
    (h : ¬ (0 ≤ i ∧ i < (xs.length : Int))) : readIndex xs i = .error .outOfBounds := by
  unfold readIndex
  by_cases hneg : i < 0
  · rw [if_pos hneg]
  · rw [if_neg hneg]
    have hge : xs.length ≤ i.toNat := by omega
    simp [readAt, List.getElem?_eq_none hge]

/-- `ConfidenceInterval` reads outside its array whenever one of its two indices is not an
index of the array; for an array of no values that is so at any indices. -/
theorem ConfidenceInterval_fault {α : Type} [LE α] [DecidableRel (fun a b : α => a ≤ b)]
    (intervalIndices : Int → Int × Int) (vals : List α) (nVals : Int)
    (hbad : ¬ (0 ≤ (intervalIndices nVals).1 ∧ (intervalIndices nVals).1 < (vals.length : Int) ∧
      0 ≤ (intervalIndices nVals).2 ∧ (intervalIndices nVals).2 < (vals.length : Int))) :
    ConfidenceInterval intervalIndices vals nVals = .error .outOfBounds := by
  unfold ConfidenceInterval
  simp only
  by_cases h1 : 0 ≤ (intervalIndices nVals).1 ∧ (intervalIndices nVals).1 < (vals.length : Int)
  · obtain ⟨lower, hlower⟩ := readIndex_of_lt (vals.insertionSort (fun a b => a ≤ b)) _ h1.1
      (by rw [List.length_insertionSort]; exact h1.2)
    rw [hlower]
    simp only
    rw [readIndex_fault _ _ (by
      rw [List.length_insertionSort]
      intro h2
      exact hbad ⟨h1.1, h1.2, h2.1, h2.2⟩)]
  · rw [readIndex_fault _ _ (by rw [List.length_insertionSort]; exact h1)]

/-- The report loop over a flagged limits table stops with an out-of-bounds read when the rows
are too short for the interval indices and some parameter has `fixed == 0`. -/
theorem reportLoop_fault {σ α S : Type} [Sub α] [Div α] [OfNat α 2] [LE α]
    [DecidableRel (fun a b : α => a ≤ b)] (ext : Externals σ α S) (bestfitParams : List α)
    (table : List (mp_par α)) (nIterations : Int) (n N : Nat) (s0 : BootState σ α)
    (hb : n ≤ bestfitParams.length) (hlen : n ≤ table.length)
    (hA : s0.paramArray.length = n) (hrows : ∀ row ∈ s0.paramArray, row.length = N)
    (hbad : ¬ (0 ≤ (ext.intervalIndices nIterations).1 ∧
      (ext.intervalIndices nIterations).1 < (N : Int) ∧
      0 ≤ (ext.intervalIndices nIterations).2 ∧
      (ext.intervalIndices nIterations).2 < (N : Int)))
    (i : Nat) (p : mp_par α) (hi : i < n) (hp : table[i]? = some p) (hfix : p.fixed = 0) :
    forLoop (reportStep ext bestfitParams (some table) true nIterations) n s0
      = .error .outOfBounds := by
  have hgen : ∀ m, m ≤ n →
      (∃ t : BootState σ α,
        forLoop (reportStep ext bestfitParams (some table) true nIterations) m s0 = .ok t ∧
        t.paramArray = s0.paramArray ∧
        ∀ j, j < m → ∀ q, table[j]? = some q → q.fixed ≠ 0) ∨
      forLoop (reportStep ext bestfitParams (some table) true nIterations) m s0
        = .error .outOfBounds := by
    intro m
    induction m with
    | zero =>
      intro _
      exact Or.inl ⟨s0, rfl, rfl, fun j hj => absurd hj (Nat.not_lt_zero j)⟩
    | succ m ih =>
      intro hm
      rcases ih (by omega) with ⟨t, ht, htA, hnone⟩ | herr
      · have hmt : m < table.length := by omega
        have hmb : m < bestfitParams.length := by omega
        have hms : m < t.paramArray.length := by rw [htA, hA]; omega
        have hstep : forLoop (reportStep ext bestfitParams (some table) true nIterations)
            (m + 1) s0 = reportStep ext bestfitParams (some table) true nIterations m t := by
          simp only [forLoop, ht]
        rw [hstep]
        unfold reportStep
        simp only [if_true, readAt_of_lt hmt]
        by_cases hfm : table[m].fixed = 0
        · right
          rw [if_pos hfm]
          have hrowN : t.paramArray[m].length = N := by
            apply hrows
            rw [← htA]
            exact List.getElem_mem hms
          simp only [reportInterval, readAt_of_lt hms]
          rw [ConfidenceInterval_fault ext.intervalIndices t.paramArray[m] nIterations
            (by rw [hrowN]; exact hbad)]
        · left
          rw [if_neg hfm]
          refine ⟨{ t with stdout := t.stdout ++
            [Output.fixedParameter (ext.GetParameterName t.world m) bestfitParams[m]] }, ?_, htA,
            ?_⟩
          · simp only [reportFixed, readAt_of_lt hmb]
          · intro j hj q hq
            by_cases hjm : j = m
            · subst hjm
              rw [List.getElem?_eq_getElem hmt] at hq
              cases hq
              exact hfm
            · exact hnone j (by omega) q hq
      · right
        simp only [forLoop, herr]
  rcases hgen n (le_refl n) with ⟨t, -, -, hnone⟩ | herr
  · exact absurd hfix (hnone i hi p hp)
  · exact herr

/-- Every call of `BootstrapErrors` with a flagged limits table in which some parameter has
`fixed == 0`, and with `nIterations` such that an interval index is not an index of a row of
`nIterations` values, ends in an out-of-bounds read in the report loop, after the iterations
and the standard deviations. -/
theorem BootstrapErrors_interval_faults {σ α S : Type} [Zero α] [Sub α] [Div α]
    [OfNat α 2] [LE α] [DecidableRel (fun a b : α => a ≤ b)] (ext : Externals σ α S)
    (indeterminate : α) (bestfitParams : List α) (table : List (mp_par α))
    (theModel : σ) (ftol : α) (nIterations nFreeParams : Int)
    (whichStatistic : Int) (outputFileName : String) (i : Nat) (p : mp_par α)
    (hdef : Defined ext bestfitParams (some table) true theModel outputFileName)
    (hbad : ¬ (0 ≤ (ext.intervalIndices nIterations).1 ∧
      (ext.intervalIndices nIterations).1 < (nIterations.toNat : Int) ∧
      0 ≤ (ext.intervalIndices nIterations).2 ∧
      (ext.intervalIndices nIterations).2 < (nIterations.toNat : Int)))
    (hi : i < (ext.GetNParams theModel).toNat) (hp : table[i]? = some p) (hfix : p.fixed = 0) :
    BootstrapErrors ext indeterminate bestfitParams (some table) true theModel ftol nIterations
      nFreeParams whichStatistic outputFileName = .error .outOfBounds := by
  obtain ⟨hb, hlen, hexist, hint, hopen⟩ := hdef
  obtain ⟨s1, recs, h1, hA1, hrows1, hsig1, -⟩ :=
    iterations_spec ext bestfitParams (some table) true ftol nFreeParams
      whichStatistic (ext.GetNParams theModel) (ext.GetNValidPixels theModel) (-1)
      nIterations.toNat
      { world := ext.UseBootstrap (ext.init_genrand (toUnsignedLong ext.time) theModel)
        paramsVect := List.replicate (ext.GetNParams theModel).toNat indeterminate
        paramArray := List.replicate (ext.GetNParams theModel).toNat
          (List.replicate nIterations.toNat 0)
        paramSigmas := List.replicate (ext.GetNParams theModel).toNat 0
        calls := [Call.init_genrand (toUnsignedLong ext.time), Call.UseBootstrap]
        stdout := [Output.text (startBanner ext whichStatistic)] }
      hb hlen hint (by simp) (by simp)
      (by
        intro row hrow
        rw [List.mem_replicate] at hrow
        rw [hrow.2]
        simp)
  obtain ⟨s2, stats2, h2, -, hA2, -⟩ :=
    sigmaLoop_spec ext nIterations (ext.GetNParams theModel).toNat s1 hA1
  have h3 := reportLoop_fault ext bestfitParams table nIterations
    (ext.GetNParams theModel).toNat nIterations.toNat
    { s2 with
      stdout := s2.stdout ++
        [Output.text "\nStatistics for parameter values from bootstrap resampling",
         Output.rounds nIterations,
         Output.text "Best-fit\t\t Bootstrap      [68% conf.int., half-width]; (mean +/- standard deviation)\n"] }
    hb (hlen table rfl) (by rw [hA2]; exact hA1) (by rw [hA2]; exact hrows1) hbad i p hi hp hfix
  simp only [BootstrapErrors, h1, h2, h3]

/-- With `nIterations = 0` every call of `BootstrapErrors` with a flagged limits table in
which some parameter has `fixed == 0` ends in an out-of-bounds read: `ConfidenceInterval` is
handed a row of no values, and no index is an index of that row, whatever the percentile
convention. -/
theorem BootstrapErrors_zero_iterations_faults {σ α S : Type} [Zero α] [Sub α] [Div α]
    [OfNat α 2] [LE α] [DecidableRel (fun a b : α => a ≤ b)] (ext : Externals σ α S)
    (indeterminate : α) (bestfitParams : List α) (table : List (mp_par α))
    (theModel : σ) (ftol : α) (nFreeParams : Int)
    (whichStatistic : Int) (outputFileName : String) (i : Nat) (p : mp_par α)
    (hdef : Defined ext bestfitParams (some table) true theModel outputFileName)
    (hi : i < (ext.GetNParams theModel).toNat) (hp : table[i]? = some p) (hfix : p.fixed = 0) :
    BootstrapErrors ext indeterminate bestfitParams (some table) true theModel ftol 0
      nFreeParams whichStatistic outputFileName = .error .outOfBounds :=
  BootstrapErrors_interval_faults ext indeterminate bestfitParams table theModel ftol 0
    nFreeParams whichStatistic outputFileName i p hdef
    (by
      intro h
      have h1 := h.1
      have h2 := h.2.1
      simp only [Int.toNat_zero, Nat.cast_zero] at h2
      omega)
    hi hp hfix

end Imfit
